import Mathlib

/-!
Verification of the PingSource reconciler (pkg/reconciler/pingsource/pingsource.go)
against its natural-language specification.

The Go file is shallowly embedded: pure helpers become Lean functions; each
reconcile step is a function from the explicit results of its lister/client
calls to a description of its outcome (result, store writes, emitted events,
status-annotation writes); the whole reconcile over a consistent store is the
composition of the steps with call results drawn from a `World` value.
Definitions carrying a `Modelled from the spec:` doc comment stand for
repository code that is referenced by pingsource.go but whose source is not
available here (naming helpers, object builders, shared constants); they are
written faithfully to the specification's words.
-/

namespace PingSourceProof

/-! ## Data model -/

/-- Destination object reference (duckv1.KReference): kind, namespace, name. -/
structure KRef where
  kind : String
  ns : String
  name : String
deriving DecidableEq, Repr

/-- duckv1.Destination: either a structured object reference or a literal URI. -/
structure Destination where
  ref : Option KRef
  uri : Option String
deriving DecidableEq, Repr

/-- The PingSource object: identity, scope annotation map, schedule/data spec, sink. -/
structure PingSource where
  name : String
  ns : String
  uid : String
  annots : List (String × String)
  schedule : String
  jsonData : String
  sink : Destination
deriving DecidableEq, Repr

/-- The sink condition on the source status: untouched, marked not found
    (Status.MarkNoSink "NotFound" ""), or resolved (Status.MarkSink). -/
inductive SinkCond
  | unresolved
  | notFound
  | resolved (uri : String)
deriving DecidableEq, Repr

/-- One CloudEvent attributes descriptor (duckv1.CloudEventAttributes). -/
structure CEAttr where
  ceType : String
  ceSource : String
deriving DecidableEq, Repr

/-- The slice of the source status that ReconcileKind mutates. -/
structure Status where
  sink : SinkCond
  scheduleValid : Bool
  deploymentAvailable : Option Bool
  statusAnnots : List (String × String)
  ceAttributes : List CEAttr
deriving DecidableEq, Repr

def Status.initial : Status :=
  { sink := .unresolved, scheduleValid := false, deploymentAvailable := none,
    statusAnnots := [], ceAttributes := [] }

/-! ## Pod specs and the drift detector -/

structure EnvVar where
  name : String
  value : String
deriving DecidableEq, Repr

structure Container where
  name : String
  image : String
  args : List String
  env : List EnvVar
deriving DecidableEq, Repr

/-- The deployment pod spec restricted to the fields the reconciler builds, plus
    `extra`: a map standing for fields the reconciler never sets (injected by other
    controllers or defaulted by the server). -/
structure PodSpec where
  serviceAccountName : String
  containers : List Container
  extra : List (String × String)
deriving DecidableEq, Repr

/-- Derivative check on basic string fields, following
    equality.Semantic.DeepDerivative: an unset (empty) desired value matches
    any live value. -/
def strDeriv (desired live : String) : Bool :=
  desired == "" || desired == live

/-- Derivative check on list fields: an empty desired list matches any live list;
    a non-empty one must match element-wise at equal length. -/
def listDeriv (f : α → α → Bool) (desired live : List α) : Bool :=
  desired.isEmpty ||
    (desired.length == live.length && (List.zip desired live).all fun p => f p.1 p.2)

/-- Derivative check on map fields: every desired entry must appear in the live map;
    extra live entries are ignored. -/
def mapDeriv (desired live : List (String × String)) : Bool :=
  desired.all fun kv => live.any fun kv2 => kv2.1 == kv.1 && kv2.2 == kv.2

def envDeriv (d l : EnvVar) : Bool :=
  strDeriv d.name l.name && strDeriv d.value l.value

def containerDeriv (d l : Container) : Bool :=
  strDeriv d.name l.name && strDeriv d.image l.image &&
    listDeriv strDeriv d.args l.args && listDeriv envDeriv d.env l.env

/-- equality.Semantic.DeepDerivative on pod specs: one-directional
    "is desired consistent with live". -/
def deepDerivative (desired live : PodSpec) : Bool :=
  strDeriv desired.serviceAccountName live.serviceAccountName &&
    listDeriv containerDeriv desired.containers live.containers &&
    mapDeriv desired.extra live.extra

/-- Source: podSpecChanged (pingsource.go lines 339-342). -/
def podSpecChanged (oldPodSpec newPodSpec : PodSpec) : Bool :=
  !(deepDerivative newPodSpec oldPodSpec)

/-- A live pod spec extended with additional fields the reconciler does not set. -/
def extendExtra (l : PodSpec) (more : List (String × String)) : PodSpec :=
  { l with extra := l.extra ++ more }

/-! ## Managed objects -/

structure SAObj where
  ns : String
  name : String
  ownerUid : Option String
deriving DecidableEq, Repr

structure RBObj where
  ns : String
  name : String
  ownerUid : Option String
  roleRef : String
  subjectName : String
deriving DecidableEq, Repr

structure DeploymentObj where
  ns : String
  name : String
  controllerUid : Option String
  podSpec : PodSpec
  ready : Bool
deriving DecidableEq, Repr

/-- metav1.IsControlledBy: the controlling owner reference carries the source's uid. -/
def isControlledBy (d : DeploymentObj) (src : PingSource) : Bool :=
  d.controllerUid == some src.uid

/-! ## Constants (pingsource.go lines 56-68) and shared repository constants -/

def pingSourceDeploymentCreated : String := "PingSourceDeploymentCreated"
def pingSourceDeploymentUpdated : String := "PingSourceDeploymentUpdated"
def pingSourceDeploymentDeleted : String := "PingSourceDeploymentDeleted"
def pingSourceServiceAccountCreated : String := "PingSourceServiceAccountCreated"
def pingSourceRoleBindingCreated : String := "PingSourceRoleBindingCreated"
def component : String := "pingsource"
def mtadapterName : String := "pingsource-mt-adapter"
def stadapterClusterRoleName : String := "knative-eventing-pingsource-adapter"

/-- Modelled from the spec: eventing.ScopeAnnotationKey and the two defined scope
    values `cluster` and `resource` (knative eventing pkg/apis/eventing, not under src/). -/
def scopeAnnotKey : String := "eventing.knative.dev/scope"

def scopeCluster : String := "cluster"

def scopeResource : String := "resource"

/-- Modelled from the spec: system.Namespace(), the fixed namespace of the
    singleton shared workload. -/
def systemNamespace : String := "knative-eventing"

/-- Modelled from the spec: v1alpha2.PingSourceEventType, the static event type string. -/
def pingSourceEventType : String := "dev.knative.sources.ping"

/-- Modelled from the spec: v1alpha2.PingSourceSource, a fixed descriptor derived purely
    from the source identity (namespace and name). -/
def pingSourceSourceStr (ns name : String) : String :=
  "/apis/v1/namespaces/" ++ ns ++ "/pingsources/" ++ name

/-! ## Naming and builders -/

/-- Modelled from the spec: resources.CreateReceiveAdapterName (not under src/), the
    deterministic collision-resistant name derived from the source name and uid, shared
    by the identity, permission-binding and per-source workload objects. -/
def CreateReceiveAdapterName (name : String) (uid : String) : String :=
  "pingsource-" ++ name ++ "-" ++ uid

/-- Modelled from the spec: utils.GenerateFixedName (not under src/), the deprecated
    naming scheme from before the kmeta.ChildName change (issue 2842): a prefix joined
    with a truncated owner uid. -/
def GenerateFixedName (uid : String) (pfx : String) : String :=
  pfx ++ "-" ++ uid.take 8

/-- Opaque logging configuration held by the Reconciler. -/
structure LoggingConfig where
  raw : String
deriving DecidableEq, Repr

/-- metrics.ExporterOptions held by the Reconciler. -/
structure MetricsOptions where
  domain : String
  component : String
  configData : List (String × String)
deriving DecidableEq, Repr

/-- Modelled from the spec: pkgLogging.LoggingConfigToJson, serializing the logging
    configuration to an opaque string embedded in desired workload specs. -/
def loggingConfigToJson (c : LoggingConfig) : String := c.raw

/-- Modelled from the spec: metrics.MetricsOptionsToJson, serializing the metrics
    options to an opaque string embedded in desired workload specs. -/
def metricsOptionsToJson (m : MetricsOptions) : String :=
  m.domain ++ "/" ++ m.component ++ "/" ++
    String.intercalate "," (m.configData.map fun kv => kv.1 ++ "=" ++ kv.2)

/-- Modelled from the spec: recresources.MakeServiceAccount (not under src/): the identity
    object at the given name in the source namespace, owned by the source. -/
def MakeServiceAccount (source : PingSource) (name : String) : SAObj :=
  { ns := source.ns, name := name, ownerUid := some source.uid }

/-- Modelled from the spec: resources.MakeRoleBinding (not under src/): binds the identity
    of the same deterministic name to the fixed pre-existing cluster role. -/
def MakeRoleBinding (source : PingSource) (name : String) (roleName : String) : RBObj :=
  { ns := source.ns, name := name, ownerUid := some source.uid,
    roleRef := roleName, subjectName := name }

/-- resources.Args for the single-tenant receive adapter (pingsource.go lines 248-255). -/
structure Args where
  image : String
  source : PingSource
  labels : List (String × String)
  sinkURI : String
  loggingCfg : String
  metricsCfg : String

/-- Modelled from the spec: resources.Labels (not under src/), adapter-relevant labels
    derived from the source name. -/
def Labels (name : String) : List (String × String) :=
  [("eventing.knative.dev/source", "ping-source-controller"),
   ("eventing.knative.dev/sourceName", name)]

/-- Modelled from the spec: resources.MakeReceiveAdapter (not under src/): the per-source
    workload deployment, named deterministically, controlled by the source, embedding the
    resolved sink address, the source spec and the serialized logging/metrics configs. -/
def MakeReceiveAdapter (args : Args) : DeploymentObj :=
  { ns := args.source.ns
    name := CreateReceiveAdapterName args.source.name args.source.uid
    controllerUid := some args.source.uid
    podSpec :=
      { serviceAccountName := CreateReceiveAdapterName args.source.name args.source.uid
        containers :=
          [{ name := "receive-adapter"
             image := args.image
             args := []
             env := [⟨"K_SINK", args.sinkURI⟩,
                     ⟨"SCHEDULE", args.source.schedule⟩,
                     ⟨"DATA", args.source.jsonData⟩,
                     ⟨"K_LOGGING_CONFIG", args.loggingCfg⟩,
                     ⟨"K_METRICS_CONFIG", args.metricsCfg⟩] }]
        extra := [] }
    ready := false }

/-- resources.MTArgs (pingsource.go lines 304-311). -/
structure MTArgs where
  serviceAccountName : String
  mtadapter : String
  image : String
  loggingCfg : String
  metricsCfg : String
  leConfig : String

/-- Modelled from the spec: resources.MakeMTReceiveAdapter (not under src/): the singleton
    shared workload built from static config only, unowned by any single source. -/
def MakeMTReceiveAdapter (args : MTArgs) : DeploymentObj :=
  { ns := systemNamespace
    name := args.mtadapter
    controllerUid := none
    podSpec :=
      { serviceAccountName := args.serviceAccountName
        containers :=
          [{ name := "dispatcher"
             image := args.image
             args := []
             env := [⟨"K_LOGGING_CONFIG", args.loggingCfg⟩,
                     ⟨"K_METRICS_CONFIG", args.metricsCfg⟩,
                     ⟨"K_LEADER_ELECTION_CONFIG", args.leConfig⟩] }]
        extra := [] }
    ready := false }

/-! ## Effects: events, writes, call results, step outcomes -/

/-- A recorded notification event (controller.GetEventRecorder Eventf). -/
structure Event where
  etype : String
  reason : String
  message : String
deriving DecidableEq, Repr

/-- A successful mutation performed through the cluster client. -/
inductive WriteOp
  | createSA (sa : SAObj)
  | createRB (rb : RBObj)
  | createDeploy (d : DeploymentObj)
  | updateDeploy (d : DeploymentObj)
  | deleteDeploy (ns : String) (name : String)
deriving DecidableEq, Repr

def WriteOp.isSAWrite : WriteOp → Bool
  | .createSA _ => true
  | _ => false

def WriteOp.isRBWrite : WriteOp → Bool
  | .createRB _ => true
  | _ => false

def WriteOp.isDeployWrite : WriteOp → Bool
  | .createDeploy _ => true
  | .updateDeploy _ => true
  | .deleteDeploy _ _ => true
  | _ => false

def WriteOp.isDelete : WriteOp → Bool
  | .deleteDeploy _ _ => true
  | _ => false

/-- Result of a lister get: found, not found, or a transient error. -/
inductive LR (α : Type)
  | found (a : α)
  | notFound
  | err (msg : String)

/-- Result of a client create/update call. -/
inductive CR
  | ok
  | err (msg : String)

/-- Result of a client delete call. -/
inductive DelR
  | ok
  | notFound
  | err (msg : String)

inductive SAErr
  | getFailed (m : String)
  | createFailed (m : String)
deriving DecidableEq, Repr

inductive RBErr
  | getFailed (m : String)
  | createFailed (m : String)
deriving DecidableEq, Repr

inductive RAErr
  | getFailed (m : String)
  | notOwned (deployName : String) (srcName : String)
  | deleteDeprecatedFailed (m : String)
  | createFailed (m : String)
  | updateFailed (m : String)
deriving DecidableEq, Repr

inductive MTErr
  | getFailed (m : String)
  | createFailed (m : String)
  | updateFailed (m : String)
deriving DecidableEq, Repr

deriving instance DecidableEq for Except

/-- Everything one reconcile step produces: its result, the store writes that
    succeeded, the events it emitted, and the status-annotation entries it wrote
    onto the source status. -/
structure StepOut (ε : Type) (α : Type) where
  res : Except ε α
  writes : List WriteOp
  events : List Event
  statusAnnots : List (String × String)
deriving DecidableEq, Repr

/-- The Reconciler configuration fields read by the reconcile steps
    (pingsource.go lines 83-105), with the external sink resolver as a function. -/
structure RConfig where
  receiveAdapterImage : String
  receiveMTAdapterImage : String
  loggingConfig : LoggingConfig
  metricsConfig : MetricsOptions
  leConfig : String
  resolve : Destination → PingSource → Option String

/-! ## Reconcile steps (call results passed explicitly) -/

/-- Source: Reconciler.reconcileServiceAccount (pingsource.go lines 195-214). On a
    found object it is returned as is; on not-found the expected object is created and
    a creation event emitted; a failed create returns the warning with no event; any
    other get error writes a diagnostic status annotation and returns the warning. -/
def reconcileServiceAccount (source : PingSource)
    (getRes : LR SAObj) (createRes : CR) : StepOut SAErr SAObj :=
  let saName := CreateReceiveAdapterName source.name source.uid
  match getRes with
  | .found sa => { res := .ok sa, writes := [], events := [], statusAnnots := [] }
  | .notFound =>
      let expected := MakeServiceAccount source saName
      match createRes with
      | .ok =>
          { res := .ok expected
            writes := [.createSA expected]
            events := [⟨"Normal", pingSourceServiceAccountCreated,
                        "PingSource ServiceAccount created"⟩]
            statusAnnots := [] }
      | .err m =>
          { res := .error (.createFailed m), writes := [], events := [], statusAnnots := [] }
  | .err m =>
      { res := .error (.getFailed m), writes := [], events := []
        statusAnnots := [("serviceAccount", "Failed to get ServiceAccount")] }

/-- Source: Reconciler.reconcileRoleBinding (pingsource.go lines 216-235), same shape
    as the service-account step. -/
def reconcileRoleBinding (source : PingSource)
    (getRes : LR RBObj) (createRes : CR) : StepOut RBErr RBObj :=
  let rbName := CreateReceiveAdapterName source.name source.uid
  match getRes with
  | .found rb => { res := .ok rb, writes := [], events := [], statusAnnots := [] }
  | .notFound =>
      let expected := MakeRoleBinding source rbName stadapterClusterRoleName
      match createRes with
      | .ok =>
          { res := .ok expected
            writes := [.createRB expected]
            events := [⟨"Normal", pingSourceRoleBindingCreated,
                        "PingSource RoleBinding created"⟩]
            statusAnnots := [] }
      | .err m =>
          { res := .error (.createFailed m), writes := [], events := [], statusAnnots := [] }
  | .err m =>
      { res := .error (.getFailed m), writes := [], events := []
        statusAnnots := [("roleBinding", "Failed to get PingSource RoleBinding")] }

/-- The desired per-source receive adapter deployment computed inside
    createReceiveAdapter (pingsource.go lines 248-256). -/
def expectedReceiveAdapter (r : RConfig) (src : PingSource) (sinkURI : String) :
    DeploymentObj :=
  MakeReceiveAdapter
    { image := r.receiveAdapterImage
      source := src
      labels := Labels src.name
      sinkURI := sinkURI
      loggingCfg := loggingConfigToJson r.loggingConfig
      metricsCfg := metricsOptionsToJson r.metricsConfig }

/-- Source: Reconciler.createReceiveAdapter (pingsource.go lines 237-291).
    Not found: the deprecated-name shim (delete tolerating not-found, then a deletion
    event) runs when the deprecated name differs, then the create runs, emitting a
    creation event whose message embeds any create error. Found: an object not
    controlled by the source is an ownership error with no write; a drifted pod spec
    is overwritten on the live object and updated; otherwise the object is reused. -/
def createReceiveAdapter (r : RConfig) (src : PingSource) (sinkURI : String)
    (getRes : LR DeploymentObj) (delRes : DelR) (createRes : CR) (updateRes : CR) :
    StepOut RAErr DeploymentObj :=
  let expected := expectedReceiveAdapter r src sinkURI
  match getRes with
  | .notFound =>
      let deprecatedName := GenerateFixedName src.uid ("pingsource-" ++ src.name)
      let shim : Except RAErr (List WriteOp × List Event) :=
        if deprecatedName = expected.name then .ok ([], [])
        else
          let delEv : Event :=
            ⟨"Normal", pingSourceDeploymentDeleted,
             "Deprecated deployment removed: \"" ++ src.ns ++ "/" ++ deprecatedName ++ "\""⟩
          match delRes with
          | .ok => .ok ([.deleteDeploy src.ns deprecatedName], [delEv])
          | .notFound => .ok ([], [delEv])
          | .err m => .error (.deleteDeprecatedFailed m)
      match shim with
      | .error e => { res := .error e, writes := [], events := [], statusAnnots := [] }
      | .ok (delWrites, delEvents) =>
          match createRes with
          | .ok =>
              { res := .ok expected
                writes := delWrites ++ [.createDeploy expected]
                events := delEvents ++
                  [⟨"Normal", pingSourceDeploymentCreated, "Deployment created"⟩]
                statusAnnots := [] }
          | .err m =>
              { res := .error (.createFailed m)
                writes := delWrites
                events := delEvents ++
                  [⟨"Normal", pingSourceDeploymentCreated,
                    "Deployment created, error: " ++ m⟩]
                statusAnnots := [] }
  | .err m =>
      { res := .error (.getFailed m), writes := [], events := [], statusAnnots := [] }
  | .found ra =>
      if isControlledBy ra src then
        if podSpecChanged ra.podSpec expected.podSpec then
          let ra2 := { ra with podSpec := expected.podSpec }
          match updateRes with
          | .ok =>
              { res := .ok ra2
                writes := [.updateDeploy ra2]
                events := [⟨"Normal", pingSourceDeploymentUpdated,
                            "Deployment \"" ++ ra2.name ++ "\" updated"⟩]
                statusAnnots := [] }
          | .err m =>
              { res := .error (.updateFailed m), writes := [], events := [], statusAnnots := [] }
        else
          { res := .ok ra, writes := [], events := [], statusAnnots := [] }
      else
        { res := .error (.notOwned ra.name src.name), writes := [], events := [], statusAnnots := [] }

/-- The desired shared adapter deployment computed inside reconcileMTReceiveAdapter
    (pingsource.go lines 304-312). -/
def expectedMTAdapter (r : RConfig) : DeploymentObj :=
  MakeMTReceiveAdapter
    { serviceAccountName := mtadapterName
      mtadapter := mtadapterName
      image := r.receiveMTAdapterImage
      loggingCfg := loggingConfigToJson r.loggingConfig
      metricsCfg := metricsOptionsToJson r.metricsConfig
      leConfig := r.leConfig }

/-- Source: Reconciler.reconcileMTReceiveAdapter (pingsource.go lines 293-337). No
    ownership check; on a failed create a Warning event is emitted; a drifted pod
    spec is overwritten and updated. -/
def reconcileMTReceiveAdapter (r : RConfig)
    (getRes : LR DeploymentObj) (createRes : CR) (updateRes : CR) :
    StepOut MTErr DeploymentObj :=
  let expected := expectedMTAdapter r
  match getRes with
  | .notFound =>
      match createRes with
      | .ok =>
          { res := .ok expected
            writes := [.createDeploy expected]
            events := [⟨"Normal", pingSourceDeploymentCreated,
                        "Cluster-scoped deployment created"⟩]
            statusAnnots := [] }
      | .err m =>
          { res := .error (.createFailed m)
            writes := []
            events := [⟨"Warning", pingSourceDeploymentCreated,
                        "Cluster-scoped deployment not created (" ++ m ++ ")"⟩]
            statusAnnots := [] }
  | .err m =>
      { res := .error (.getFailed m), writes := [], events := [], statusAnnots := [] }
  | .found d =>
      if podSpecChanged d.podSpec expected.podSpec then
        let d2 := { d with podSpec := expected.podSpec }
        match updateRes with
        | .ok =>
            { res := .ok d2
              writes := [.updateDeploy d2]
              events := [⟨"Normal", pingSourceDeploymentUpdated,
                          "Cluster-scoped deployment updated"⟩]
              statusAnnots := [] }
        | .err m =>
            { res := .error (.updateFailed m), writes := [], events := [], statusAnnots := [] }
      else
        { res := .ok d, writes := [], events := [], statusAnnots := [] }

/-! ## The consistent world: lister reads the same store the client writes -/

structure World where
  serviceAccounts : List SAObj
  roleBindings : List RBObj
  deployments : List DeploymentObj
deriving DecidableEq, Repr

def findSA (w : World) (ns name : String) : Option SAObj :=
  w.serviceAccounts.find? fun o => o.ns == ns && o.name == name

def findRB (w : World) (ns name : String) : Option RBObj :=
  w.roleBindings.find? fun o => o.ns == ns && o.name == name

def findDeploy (w : World) (ns name : String) : Option DeploymentObj :=
  w.deployments.find? fun o => o.ns == ns && o.name == name

def applyWrite (w : World) : WriteOp → World
  | .createSA sa => { w with serviceAccounts := sa :: w.serviceAccounts }
  | .createRB rb => { w with roleBindings := rb :: w.roleBindings }
  | .createDeploy d => { w with deployments := d :: w.deployments }
  | .updateDeploy d =>
      { w with deployments :=
          d :: w.deployments.filter fun o => !(o.ns == d.ns && o.name == d.name) }
  | .deleteDeploy ns name =>
      { w with deployments :=
          w.deployments.filter fun o => !(o.ns == ns && o.name == name) }

def applyWrites (w : World) (ws : List WriteOp) : World := ws.foldl applyWrite w

def lrOf : Option α → LR α
  | some a => .found a
  | none => .notFound

/-- reconcileServiceAccount with call results drawn from a consistent world. -/
def reconcileServiceAccountW (w : World) (source : PingSource) : StepOut SAErr SAObj :=
  reconcileServiceAccount source
    (lrOf (findSA w source.ns (CreateReceiveAdapterName source.name source.uid))) .ok

/-- reconcileRoleBinding with call results drawn from a consistent world. -/
def reconcileRoleBindingW (w : World) (source : PingSource) : StepOut RBErr RBObj :=
  reconcileRoleBinding source
    (lrOf (findRB w source.ns (CreateReceiveAdapterName source.name source.uid))) .ok

/-- createReceiveAdapter with call results drawn from a consistent world: the delete of
    the deprecated name reports not-found exactly when no such deployment exists. -/
def createReceiveAdapterW (r : RConfig) (w : World) (src : PingSource) (sinkURI : String) :
    StepOut RAErr DeploymentObj :=
  createReceiveAdapter r src sinkURI
    (lrOf (findDeploy w src.ns (CreateReceiveAdapterName src.name src.uid)))
    (match findDeploy w src.ns (GenerateFixedName src.uid ("pingsource-" ++ src.name)) with
     | some _ => .ok
     | none => .notFound)
    .ok .ok

/-- reconcileMTReceiveAdapter with call results drawn from a consistent world. -/
def reconcileMTReceiveAdapterW (r : RConfig) (w : World) : StepOut MTErr DeploymentObj :=
  reconcileMTReceiveAdapter r (lrOf (findDeploy w systemNamespace mtadapterName)) .ok .ok

/-! ## The orchestrator -/

/-- Errors as returned by ReconcileKind, tagged with the step that produced them. -/
inductive RErr
  | sinkNotFound (dest : Destination)
  | saError (e : SAErr)
  | rbError (e : RBErr)
  | raError (e : RAErr)
  | mtError (e : MTErr)
deriving DecidableEq, Repr

/-- One reconcile invocation's observable outcome. -/
structure ROut where
  result : Option RErr
  status : Status
  world : World
  writes : List WriteOp
  events : List Event
deriving DecidableEq, Repr

/-- Source: ReconcileKind namespace defaulting (pingsource.go lines 119-128): the sink
    destination is deep-copied and, when the structured reference lacks a namespace,
    the copy's namespace is defaulted to the source's own namespace. -/
def defaultedDest (source : PingSource) : Destination :=
  match source.sink.ref with
  | none => source.sink
  | some r =>
      if r.ns = "" then { source.sink with ref := some { r with ns := source.ns } }
      else source.sink

/-- Source: ReconcileKind scope reading (pingsource.go lines 141-144): the annotation
    value, defaulting to the cluster scope only when the key is absent. -/
def scopeOf (source : PingSource) : String :=
  match source.annots.find? (fun kv => kv.1 == scopeAnnotKey) with
  | some kv => kv.2
  | none => scopeCluster

/-- The routing decision actually taken at pingsource.go line 146. -/
def routesToCluster (source : PingSource) : Bool :=
  scopeOf source == scopeCluster

/-- The status value after MarkSink and MarkSchedule (pingsource.go lines 135-139). -/
def statusAfterSink (sinkURI : String) : Status :=
  { Status.initial with sink := .resolved sinkURI, scheduleValid := true }

/-- The CloudEvent attributes written at pingsource.go lines 187-190. -/
def ceAttrsOf (source : PingSource) : List CEAttr :=
  [⟨pingSourceEventType, pingSourceSourceStr source.ns source.name⟩]

/-- Source: the cluster-scope branch of ReconcileKind (pingsource.go lines 146-167):
    ensure the shared mt adapter, propagate its availability, track it (the tracker is
    an external collaborator modelled as always succeeding). -/
def clusterPath (r : RConfig) (w : World) (source : PingSource) (st : Status) : ROut :=
  let out := reconcileMTReceiveAdapterW r w
  match out.res with
  | .error e =>
      { result := some (.mtError e), status := st, world := applyWrites w out.writes,
        writes := out.writes, events := out.events }
  | .ok d =>
      { result := none
        status := { st with deploymentAvailable := some d.ready, ceAttributes := ceAttrsOf source }
        world := applyWrites w out.writes
        writes := out.writes
        events := out.events }

/-- Source: the resource-scope branch of ReconcileKind (pingsource.go lines 168-185):
    service account, then role binding, then the per-source receive adapter, each step
    short-circuiting on error; availability propagated from the adapter deployment. -/
def resourcePath (r : RConfig) (w : World) (source : PingSource) (sinkURI : String)
    (st : Status) : ROut :=
  let saOut := reconcileServiceAccountW w source
  match saOut.res with
  | .error e =>
      { result := some (.saError e)
        status := { st with statusAnnots := saOut.statusAnnots }
        world := applyWrites w saOut.writes
        writes := saOut.writes, events := saOut.events }
  | .ok _ =>
      let w1 := applyWrites w saOut.writes
      let rbOut := reconcileRoleBindingW w1 source
      match rbOut.res with
      | .error e =>
          { result := some (.rbError e)
            status := { st with statusAnnots := rbOut.statusAnnots }
            world := applyWrites w1 rbOut.writes
            writes := saOut.writes ++ rbOut.writes
            events := saOut.events ++ rbOut.events }
      | .ok _ =>
          let w2 := applyWrites w1 rbOut.writes
          let raOut := createReceiveAdapterW r w2 source sinkURI
          match raOut.res with
          | .error e =>
              { result := some (.raError e), status := st
                world := applyWrites w2 raOut.writes
                writes := saOut.writes ++ rbOut.writes ++ raOut.writes
                events := saOut.events ++ rbOut.events ++ raOut.events }
          | .ok ra =>
              { result := none
                status := { st with deploymentAvailable := some ra.ready, ceAttributes := ceAttrsOf source }
                world := applyWrites w2 raOut.writes
                writes := saOut.writes ++ rbOut.writes ++ raOut.writes
                events := saOut.events ++ rbOut.events ++ raOut.events }

/-- Source: Reconciler.ReconcileKind (pingsource.go lines 110-193) over a consistent
    world: resolve the (namespace-defaulted) sink, short-circuiting on failure with the
    not-found sink condition; mark the sink and the schedule; then route on the scope
    annotation to the shared or the per-source path. -/
def ReconcileKind (r : RConfig) (w : World) (source : PingSource) : ROut :=
  let dest := defaultedDest source
  match r.resolve dest source with
  | none =>
      { result := some (.sinkNotFound dest)
        status := { Status.initial with sink := .notFound }
        world := w, writes := [], events := [] }
  | some sinkURI =>
      let st := statusAfterSink sinkURI
      if scopeOf source == scopeCluster then clusterPath r w source st
      else resourcePath r w source sinkURI st

/-! ## Configuration-watch callbacks -/

/-- A configuration snapshot (corev1.ConfigMap restricted to what the callbacks read). -/
structure ConfigMap where
  name : String
  data : List (String × String)
deriving DecidableEq, Repr

/-- The delete of the reserved `_example` key (pingsource.go lines 346-348, 361-363). -/
def stripExample (cm : ConfigMap) : ConfigMap :=
  { cm with data := cm.data.filter fun kv => kv.1 != "_example" }

/-- Source: Reconciler.UpdateFromLoggingConfigMap (pingsource.go lines 345-357). A nil
    snapshot is `none`; the external parser (pkgLogging.NewConfigFromConfigMap) is a
    parameter. The result is the configuration stored afterwards, or `none` for a crash:
    on the parse-error path the warning log dereferences cfg.Name, which panics when the
    snapshot is nil. -/
def UpdateFromLoggingConfigMap (parse : Option ConfigMap → Except String LoggingConfig)
    (prev : LoggingConfig) (cfg : Option ConfigMap) : Option LoggingConfig :=
  let cfg2 := cfg.map stripExample
  match parse cfg2 with
  | .ok c => some c
  | .error _ =>
      match cfg2 with
      | some _ => some prev
      | none => none

/-- Modelled from the spec: metrics.Domain() (external, constant per process). -/
def metricsDomain : String := "knative.dev/eventing"

/-- Source: Reconciler.UpdateFromMetricsConfigMap (pingsource.go lines 360-371). The nil
    guard covers only the `_example` delete; cfg.Data is then read unconditionally, so a
    nil snapshot dereferences nil (result `none` for the crash). No parsing happens: the
    stored options are always replaced for a non-nil snapshot. -/
def UpdateFromMetricsConfigMap (_prev : MetricsOptions) (cfg : Option ConfigMap) :
    Option MetricsOptions :=
  let cfg2 := cfg.map stripExample
  match cfg2 with
  | none => none
  | some c => some { domain := metricsDomain, component := component, configData := c.data }

/-! ## Concrete fixtures used by witnesses and counterexamples -/

def cfg0 : RConfig :=
  { receiveAdapterImage := "img-st"
    receiveMTAdapterImage := "img-mt"
    loggingConfig := ⟨"logcfg"⟩
    metricsConfig := ⟨"knative.dev/eventing", "pingsource", []⟩
    leConfig := "le"
    resolve := fun _ _ => some "http://sink.example" }

/-- A resolver that fails on every destination. -/
def cfgNoSink : RConfig := { cfg0 with resolve := fun _ _ => none }

def srcRes : PingSource :=
  { name := "p1", ns := "ns1", uid := "1234567890"
    annots := [(scopeAnnotKey, "resource")]
    schedule := "*/1 * * * *", jsonData := "d"
    sink := { ref := some ⟨"Service", "", "svc1"⟩, uri := none } }

def srcNoAnnot : PingSource := { srcRes with annots := [] }

def srcClusterAnnot : PingSource := { srcRes with annots := [(scopeAnnotKey, "cluster")] }

def srcBogus : PingSource := { srcRes with annots := [(scopeAnnotKey, "bogus")] }

def wEmpty : World := ⟨[], [], []⟩

/-- A source whose uid is short enough that the deprecated naming scheme coincides with the
    current one. -/
def srcShort : PingSource := { srcRes with uid := "u1" }

/-- A source whose sink reference carries an explicit namespace. -/
def srcExplicitNs : PingSource :=
  { srcRes with sink := { ref := some ⟨"Service", "ns9", "svc1"⟩, uri := none } }

/-- A service account sitting at the expected deterministic name but owned by someone else. -/
def saForeign : SAObj :=
  ⟨"ns1", CreateReceiveAdapterName "p1" "1234567890", some "other-uid"⟩

def wForeignSA : World := ⟨[saForeign], [], []⟩

/-- A deployment sitting at the expected deterministic name but controlled by someone else. -/
def raForeign : DeploymentObj :=
  { ns := "ns1", name := CreateReceiveAdapterName "p1" "1234567890",
    controllerUid := some "other-uid",
    podSpec := ⟨"", [], []⟩, ready := false }

def wForeignRA : World := ⟨[], [], [raForeign]⟩

/-- A deployment present under the deprecated naming scheme only. -/
def raDeprecated : DeploymentObj :=
  { ns := "ns1", name := GenerateFixedName srcRes.uid ("pingsource-" ++ srcRes.name),
    controllerUid := some srcRes.uid, podSpec := ⟨"", [], []⟩, ready := false }

def wDeprecated : World := ⟨[], [], [raDeprecated]⟩

/-- An owned deployment whose pod spec has drifted from the desired one. -/
def raDrift : DeploymentObj :=
  { ns := "ns1", name := CreateReceiveAdapterName "p1" "1234567890",
    controllerUid := some "1234567890",
    podSpec := ⟨"other", [], []⟩, ready := false }

/-- An owned drifted deployment for the short-uid source. -/
def raDriftShort : DeploymentObj :=
  { ns := "ns1", name := CreateReceiveAdapterName "p1" "u1",
    controllerUid := some "u1",
    podSpec := ⟨"other", [], []⟩, ready := false }

/-- A desired pod spec and a live pod spec carrying one extra server-injected field. -/
def psDesired : PodSpec := ⟨"sa1", [⟨"c", "img", [], [⟨"K_SINK", "u"⟩]⟩], []⟩

def psLive : PodSpec := ⟨"sa1", [⟨"c", "img", [], [⟨"K_SINK", "u"⟩]⟩], [("injected", "x")]⟩

/-- The live per-source adapter as the server may hold it: the desired deployment with an
    extra defaulted pod-spec field. -/
def raLive : DeploymentObj :=
  { expectedReceiveAdapter cfg0 srcRes "http://sink.example" with
    podSpec := extendExtra (expectedReceiveAdapter cfg0 srcRes "http://sink.example").podSpec
      [("server-field", "v")] }

def cmObs : ConfigMap :=
  ⟨"config-observability", [("_example", "doc"), ("metrics.backend", "prometheus")]⟩

def cmLog : ConfigMap :=
  ⟨"config-logging", [("_example", "doc"), ("zap-logger-config", "cfg")]⟩

def parseFailAlways : Option ConfigMap → Except String LoggingConfig :=
  fun _ => .error "malformed"

def prevLog : LoggingConfig := ⟨"prev"⟩

def prevMetrics : MetricsOptions := ⟨"knative.dev/eventing", "pingsource", [("old", "1")]⟩

/-- The world after the service-account step of the resource path. -/
def afterSA (w : World) (source : PingSource) : World :=
  applyWrites w (reconcileServiceAccountW w source).writes

/-- The world after the role-binding step of the resource path. -/
def afterRB (w : World) (source : PingSource) : World :=
  applyWrites (afterSA w source) (reconcileRoleBindingW (afterSA w source) source).writes

/-- The deployment-slice writes of a reconcile outcome. -/
def deployWritesOf (ws : List WriteOp) : List WriteOp :=
  ws.filter WriteOp.isDeployWrite

/-- The delete-slice writes of a reconcile outcome. -/
def deleteWritesOf (ws : List WriteOp) : List WriteOp :=
  ws.filter WriteOp.isDelete

/-! ## Helper lemmas: the derivative relation -/

theorem strDeriv_refl (s : String) : strDeriv s s = true := by
  simp [strDeriv]

theorem zip_self_all (f : α → α → Bool) (h : ∀ a, f a a = true) :
    ∀ l : List α, (List.zip l l).all (fun p => f p.1 p.2) = true := by
  intro l
  induction l with
  | nil => rfl
  | cons a t ih => simp [List.zip_cons_cons, h a, ih]

theorem listDeriv_refl (f : α → α → Bool) (h : ∀ a, f a a = true) (l : List α) :
    listDeriv f l l = true := by
  unfold listDeriv
  rw [zip_self_all f h l]
  simp

theorem mapDeriv_refl (m : List (String × String)) : mapDeriv m m = true := by
  unfold mapDeriv
  rw [List.all_eq_true]
  intro kv hkv
  rw [List.any_eq_true]
  exact ⟨kv, hkv, by simp⟩

theorem envDeriv_refl (e : EnvVar) : envDeriv e e = true := by
  simp [envDeriv, strDeriv_refl]

theorem containerDeriv_refl (c : Container) : containerDeriv c c = true := by
  simp [containerDeriv, strDeriv_refl, listDeriv_refl strDeriv strDeriv_refl,
    listDeriv_refl envDeriv envDeriv_refl]

theorem deepDerivative_refl (s : PodSpec) : deepDerivative s s = true := by
  simp [deepDerivative, strDeriv_refl, mapDeriv_refl,
    listDeriv_refl containerDeriv containerDeriv_refl]

theorem podSpecChanged_self (s : PodSpec) : podSpecChanged s s = false := by
  simp [podSpecChanged, deepDerivative_refl]

theorem mapDeriv_append (d l more : List (String × String)) (h : mapDeriv d l = true) :
    mapDeriv d (l ++ more) = true := by
  unfold mapDeriv at h ⊢
  rw [List.all_eq_true] at h ⊢
  intro kv hkv
  have hx := h kv hkv
  rw [List.any_eq_true] at hx ⊢
  obtain ⟨x, hmem, hpx⟩ := hx
  exact ⟨x, List.mem_append_left _ hmem, hpx⟩

theorem deepDerivative_extendExtra (d l : PodSpec) (more : List (String × String))
    (h : deepDerivative d l = true) : deepDerivative d (extendExtra l more) = true := by
  simp only [deepDerivative, extendExtra, Bool.and_eq_true] at h ⊢
  exact ⟨h.1, mapDeriv_append _ _ more h.2⟩

/-! ## Helper lemmas: the world and writes -/

theorem WriteOp.isSA_not_others (op : WriteOp) (h : op.isSAWrite = true) :
    op.isRBWrite = false ∧ op.isDeployWrite = false := by
  cases op <;> simp_all [isSAWrite, isRBWrite, isDeployWrite]

theorem WriteOp.isRB_not_others (op : WriteOp) (h : op.isRBWrite = true) :
    op.isSAWrite = false ∧ op.isDeployWrite = false := by
  cases op <;> simp_all [isSAWrite, isRBWrite, isDeployWrite]

theorem WriteOp.isDeploy_not_others (op : WriteOp) (h : op.isDeployWrite = true) :
    op.isSAWrite = false ∧ op.isRBWrite = false := by
  cases op <;> simp_all [isSAWrite, isRBWrite, isDeployWrite]

theorem findSA_applyWrite (w : World) (op : WriteOp) (ns n : String)
    (h : op.isSAWrite = false) : findSA (applyWrite w op) ns n = findSA w ns n := by
  cases op <;> simp_all [applyWrite, findSA, WriteOp.isSAWrite]

theorem findRB_applyWrite (w : World) (op : WriteOp) (ns n : String)
    (h : op.isRBWrite = false) : findRB (applyWrite w op) ns n = findRB w ns n := by
  cases op <;> simp_all [applyWrite, findRB, WriteOp.isRBWrite]

theorem findDeploy_applyWrite (w : World) (op : WriteOp) (ns n : String)
    (h : op.isDeployWrite = false) : findDeploy (applyWrite w op) ns n = findDeploy w ns n := by
  cases op <;> simp_all [applyWrite, findDeploy, WriteOp.isDeployWrite]

theorem findSA_applyWrites (w : World) (ws : List WriteOp) (ns n : String)
    (h : ∀ op ∈ ws, op.isSAWrite = false) :
    findSA (applyWrites w ws) ns n = findSA w ns n := by
  induction ws generalizing w with
  | nil => rfl
  | cons op t ih =>
      simp only [applyWrites, List.foldl_cons]
      rw [show (t.foldl applyWrite (applyWrite w op)) = applyWrites (applyWrite w op) t from rfl]
      rw [ih (applyWrite w op) fun o ho => h o (List.mem_cons_of_mem _ ho)]
      exact findSA_applyWrite w op ns n (h op (List.mem_cons_self _ _))

theorem findRB_applyWrites (w : World) (ws : List WriteOp) (ns n : String)
    (h : ∀ op ∈ ws, op.isRBWrite = false) :
    findRB (applyWrites w ws) ns n = findRB w ns n := by
  induction ws generalizing w with
  | nil => rfl
  | cons op t ih =>
      simp only [applyWrites, List.foldl_cons]
      rw [show (t.foldl applyWrite (applyWrite w op)) = applyWrites (applyWrite w op) t from rfl]
      rw [ih (applyWrite w op) fun o ho => h o (List.mem_cons_of_mem _ ho)]
      exact findRB_applyWrite w op ns n (h op (List.mem_cons_self _ _))

theorem findDeploy_applyWrites (w : World) (ws : List WriteOp) (ns n : String)
    (h : ∀ op ∈ ws, op.isDeployWrite = false) :
    findDeploy (applyWrites w ws) ns n = findDeploy w ns n := by
  induction ws generalizing w with
  | nil => rfl
  | cons op t ih =>
      simp only [applyWrites, List.foldl_cons]
      rw [show (t.foldl applyWrite (applyWrite w op)) = applyWrites (applyWrite w op) t from rfl]
      rw [ih (applyWrite w op) fun o ho => h o (List.mem_cons_of_mem _ ho)]
      exact findDeploy_applyWrite w op ns n (h op (List.mem_cons_self _ _))

theorem findDeploy_mem_keys {w : World} {ns n : String} {d : DeploymentObj}
    (h : findDeploy w ns n = some d) : d.ns = ns ∧ d.name = n := by
  have hp := List.find?_some h
  simp only [Bool.and_eq_true, beq_iff_eq] at hp
  exact hp

/-! ## Helper lemmas: single steps over a consistent world -/

theorem saW_found (w : World) (source : PingSource) (sa : SAObj)
    (h : findSA w source.ns (CreateReceiveAdapterName source.name source.uid) = some sa) :
    reconcileServiceAccountW w source = ⟨.ok sa, [], [], []⟩ := by
  unfold reconcileServiceAccountW
  rw [h]
  rfl

theorem saW_notFound (w : World) (source : PingSource)
    (h : findSA w source.ns (CreateReceiveAdapterName source.name source.uid) = none) :
    reconcileServiceAccountW w source =
      ⟨.ok (MakeServiceAccount source (CreateReceiveAdapterName source.name source.uid)),
       [.createSA (MakeServiceAccount source (CreateReceiveAdapterName source.name source.uid))],
       [⟨"Normal", pingSourceServiceAccountCreated, "PingSource ServiceAccount created"⟩],
       []⟩ := by
  unfold reconcileServiceAccountW
  rw [h]
  rfl

theorem rbW_found (w : World) (source : PingSource) (rb : RBObj)
    (h : findRB w source.ns (CreateReceiveAdapterName source.name source.uid) = some rb) :
    reconcileRoleBindingW w source = ⟨.ok rb, [], [], []⟩ := by
  unfold reconcileRoleBindingW
  rw [h]
  rfl

theorem rbW_notFound (w : World) (source : PingSource)
    (h : findRB w source.ns (CreateReceiveAdapterName source.name source.uid) = none) :
    reconcileRoleBindingW w source =
      ⟨.ok (MakeRoleBinding source (CreateReceiveAdapterName source.name source.uid)
              stadapterClusterRoleName),
       [.createRB (MakeRoleBinding source (CreateReceiveAdapterName source.name source.uid)
              stadapterClusterRoleName)],
       [⟨"Normal", pingSourceRoleBindingCreated, "PingSource RoleBinding created"⟩],
       []⟩ := by
  unfold reconcileRoleBindingW
  rw [h]
  rfl

theorem saW_res_ok (w : World) (source : PingSource) :
    ∃ sa, (reconcileServiceAccountW w source).res = .ok sa := by
  cases h : findSA w source.ns (CreateReceiveAdapterName source.name source.uid) with
  | none => exact ⟨_, by rw [saW_notFound w source h]⟩
  | some sa => exact ⟨sa, by rw [saW_found w source sa h]⟩

theorem rbW_res_ok (w : World) (source : PingSource) :
    ∃ rb, (reconcileRoleBindingW w source).res = .ok rb := by
  cases h : findRB w source.ns (CreateReceiveAdapterName source.name source.uid) with
  | none => exact ⟨_, by rw [rbW_notFound w source h]⟩
  | some rb => exact ⟨rb, by rw [rbW_found w source rb h]⟩

theorem saW_writes_kinds (w : World) (source : PingSource) :
    ∀ op ∈ (reconcileServiceAccountW w source).writes, op.isSAWrite = true := by
  cases h : findSA w source.ns (CreateReceiveAdapterName source.name source.uid) with
  | none => rw [saW_notFound w source h]; simp [WriteOp.isSAWrite]
  | some sa => rw [saW_found w source sa h]; simp

theorem rbW_writes_kinds (w : World) (source : PingSource) :
    ∀ op ∈ (reconcileRoleBindingW w source).writes, op.isRBWrite = true := by
  cases h : findRB w source.ns (CreateReceiveAdapterName source.name source.uid) with
  | none => rw [rbW_notFound w source h]; simp [WriteOp.isRBWrite]
  | some rb => rw [rbW_found w source rb h]; simp

theorem saW_post (w : World) (source : PingSource) :
    ∃ sa, findSA (applyWrites w (reconcileServiceAccountW w source).writes) source.ns
      (CreateReceiveAdapterName source.name source.uid) = some sa := by
  cases h : findSA w source.ns (CreateReceiveAdapterName source.name source.uid) with
  | some sa => exact ⟨sa, by rw [saW_found w source sa h]; exact h⟩
  | none =>
      rw [saW_notFound w source h]
      refine ⟨MakeServiceAccount source (CreateReceiveAdapterName source.name source.uid), ?_⟩
      simp [applyWrites, applyWrite, findSA, MakeServiceAccount]

theorem rbW_post (w : World) (source : PingSource) :
    ∃ rb, findRB (applyWrites w (reconcileRoleBindingW w source).writes) source.ns
      (CreateReceiveAdapterName source.name source.uid) = some rb := by
  cases h : findRB w source.ns (CreateReceiveAdapterName source.name source.uid) with
  | some rb => exact ⟨rb, by rw [rbW_found w source rb h]; exact h⟩
  | none =>
      rw [rbW_notFound w source h]
      refine ⟨MakeRoleBinding source (CreateReceiveAdapterName source.name source.uid)
        stadapterClusterRoleName, ?_⟩
      simp [applyWrites, applyWrite, findRB, MakeRoleBinding]

theorem findDeploy_after_create (w : World) (d : DeploymentObj) :
    findDeploy (applyWrite w (.createDeploy d)) d.ns d.name = some d := by
  simp [applyWrite, findDeploy]

theorem findDeploy_after_update (w : World) (d : DeploymentObj) :
    findDeploy (applyWrite w (.updateDeploy d)) d.ns d.name = some d := by
  simp [applyWrite, findDeploy]

theorem findDeploy_applyWrites_create (w : World) (ws : List WriteOp) (d : DeploymentObj) :
    findDeploy (applyWrites w (ws ++ [.createDeploy d])) d.ns d.name = some d := by
  unfold applyWrites
  rw [List.foldl_append]
  exact findDeploy_after_create _ d

theorem isControlledBy_expected (r : RConfig) (src : PingSource) (uri : String) :
    isControlledBy (expectedReceiveAdapter r src uri) src = true := by
  simp [isControlledBy, expectedReceiveAdapter, MakeReceiveAdapter]

/-! ## Helper lemmas: the receive-adapter step over a consistent world -/

theorem raW_notOwned (r : RConfig) (w : World) (src : PingSource) (uri : String)
    (ra : DeploymentObj)
    (hfind : findDeploy w src.ns (CreateReceiveAdapterName src.name src.uid) = some ra)
    (hown : isControlledBy ra src = false) :
    createReceiveAdapterW r w src uri =
      ⟨.error (.notOwned ra.name src.name), [], [], []⟩ := by
  unfold createReceiveAdapterW createReceiveAdapter
  rw [hfind]
  simp [lrOf, hown]

theorem raW_found_owned_nodrift (r : RConfig) (w : World) (src : PingSource) (uri : String)
    (ra : DeploymentObj)
    (hfind : findDeploy w src.ns (CreateReceiveAdapterName src.name src.uid) = some ra)
    (hown : isControlledBy ra src = true)
    (hnd : podSpecChanged ra.podSpec (expectedReceiveAdapter r src uri).podSpec = false) :
    createReceiveAdapterW r w src uri = ⟨.ok ra, [], [], []⟩ := by
  unfold createReceiveAdapterW createReceiveAdapter
  rw [hfind]
  simp [lrOf, hown, hnd]

theorem raW_found_owned_drift (r : RConfig) (w : World) (src : PingSource) (uri : String)
    (ra : DeploymentObj)
    (hfind : findDeploy w src.ns (CreateReceiveAdapterName src.name src.uid) = some ra)
    (hown : isControlledBy ra src = true)
    (hd : podSpecChanged ra.podSpec (expectedReceiveAdapter r src uri).podSpec = true) :
    createReceiveAdapterW r w src uri =
      ⟨.ok { ra with podSpec := (expectedReceiveAdapter r src uri).podSpec },
       [.updateDeploy { ra with podSpec := (expectedReceiveAdapter r src uri).podSpec }],
       [⟨"Normal", pingSourceDeploymentUpdated, "Deployment \"" ++ ra.name ++ "\" updated"⟩],
       []⟩ := by
  unfold createReceiveAdapterW createReceiveAdapter
  rw [hfind]
  simp [lrOf, hown, hd]

theorem raW_notFound_sameName (r : RConfig) (w : World) (src : PingSource) (uri : String)
    (hfind : findDeploy w src.ns (CreateReceiveAdapterName src.name src.uid) = none)
    (heq : GenerateFixedName src.uid ("pingsource-" ++ src.name) =
      CreateReceiveAdapterName src.name src.uid) :
    createReceiveAdapterW r w src uri =
      ⟨.ok (expectedReceiveAdapter r src uri),
       [.createDeploy (expectedReceiveAdapter r src uri)],
       [⟨"Normal", pingSourceDeploymentCreated, "Deployment created"⟩], []⟩ := by
  unfold createReceiveAdapterW createReceiveAdapter
  rw [hfind]
  have hname : (expectedReceiveAdapter r src uri).name =
      CreateReceiveAdapterName src.name src.uid := rfl
  simp [lrOf, hname, heq]

theorem raW_notFound_diff_present (r : RConfig) (w : World) (src : PingSource) (uri : String)
    (d0 : DeploymentObj)
    (hfind : findDeploy w src.ns (CreateReceiveAdapterName src.name src.uid) = none)
    (hne : GenerateFixedName src.uid ("pingsource-" ++ src.name) ≠
      CreateReceiveAdapterName src.name src.uid)
    (hdep : findDeploy w src.ns (GenerateFixedName src.uid ("pingsource-" ++ src.name)) = some d0) :
    createReceiveAdapterW r w src uri =
      ⟨.ok (expectedReceiveAdapter r src uri),
       [.deleteDeploy src.ns (GenerateFixedName src.uid ("pingsource-" ++ src.name)),
        .createDeploy (expectedReceiveAdapter r src uri)],
       [⟨"Normal", pingSourceDeploymentDeleted,
         "Deprecated deployment removed: \"" ++ src.ns ++ "/" ++
           GenerateFixedName src.uid ("pingsource-" ++ src.name) ++ "\""⟩,
        ⟨"Normal", pingSourceDeploymentCreated, "Deployment created"⟩], []⟩ := by
  unfold createReceiveAdapterW createReceiveAdapter
  rw [hfind, hdep]
  have hname : (expectedReceiveAdapter r src uri).name =
      CreateReceiveAdapterName src.name src.uid := rfl
  simp [lrOf, hname, hne]

theorem raW_notFound_diff_absent (r : RConfig) (w : World) (src : PingSource) (uri : String)
    (hfind : findDeploy w src.ns (CreateReceiveAdapterName src.name src.uid) = none)
    (hne : GenerateFixedName src.uid ("pingsource-" ++ src.name) ≠
      CreateReceiveAdapterName src.name src.uid)
    (hdep : findDeploy w src.ns (GenerateFixedName src.uid ("pingsource-" ++ src.name)) = none) :
    createReceiveAdapterW r w src uri =
      ⟨.ok (expectedReceiveAdapter r src uri),
       [.createDeploy (expectedReceiveAdapter r src uri)],
       [⟨"Normal", pingSourceDeploymentDeleted,
         "Deprecated deployment removed: \"" ++ src.ns ++ "/" ++
           GenerateFixedName src.uid ("pingsource-" ++ src.name) ++ "\""⟩,
        ⟨"Normal", pingSourceDeploymentCreated, "Deployment created"⟩], []⟩ := by
  unfold createReceiveAdapterW createReceiveAdapter
  rw [hfind, hdep]
  have hname : (expectedReceiveAdapter r src uri).name =
      CreateReceiveAdapterName src.name src.uid := rfl
  simp [lrOf, hname, hne]

theorem raW_writes_kinds (r : RConfig) (w : World) (src : PingSource) (uri : String) :
    ∀ op ∈ (createReceiveAdapterW r w src uri).writes, op.isDeployWrite = true := by
  cases hfind : findDeploy w src.ns (CreateReceiveAdapterName src.name src.uid) with
  | some ra =>
      cases hown : isControlledBy ra src with
      | false => rw [raW_notOwned r w src uri ra hfind hown]; simp
      | true =>
          cases hd : podSpecChanged ra.podSpec (expectedReceiveAdapter r src uri).podSpec with
          | false => rw [raW_found_owned_nodrift r w src uri ra hfind hown hd]; simp
          | true =>
              rw [raW_found_owned_drift r w src uri ra hfind hown hd]
              simp [WriteOp.isDeployWrite]
  | none =>
      by_cases heq : GenerateFixedName src.uid ("pingsource-" ++ src.name) =
          CreateReceiveAdapterName src.name src.uid
      · rw [raW_notFound_sameName r w src uri hfind heq]; simp [WriteOp.isDeployWrite]
      · cases hdep : findDeploy w src.ns
            (GenerateFixedName src.uid ("pingsource-" ++ src.name)) with
        | some d0 =>
            rw [raW_notFound_diff_present r w src uri d0 hfind heq hdep]
            simp [WriteOp.isDeployWrite]
        | none =>
            rw [raW_notFound_diff_absent r w src uri hfind heq hdep]
            simp [WriteOp.isDeployWrite]

theorem raW_idem (r : RConfig) (w : World) (src : PingSource) (uri : String) :
    (createReceiveAdapterW r (applyWrites w (createReceiveAdapterW r w src uri).writes)
      src uri).writes = [] ∧
    ((∃ ra, (createReceiveAdapterW r w src uri).res = .ok ra) →
      ∃ ra2, (createReceiveAdapterW r (applyWrites w (createReceiveAdapterW r w src uri).writes)
        src uri).res = .ok ra2) := by
  have hexp_ns : (expectedReceiveAdapter r src uri).ns = src.ns := rfl
  have hexp_name : (expectedReceiveAdapter r src uri).name =
    CreateReceiveAdapterName src.name src.uid := rfl
  cases hfind : findDeploy w src.ns (CreateReceiveAdapterName src.name src.uid) with
  | some ra =>
      obtain ⟨hra_ns, hra_name⟩ := findDeploy_mem_keys hfind
      cases hown : isControlledBy ra src with
      | false =>
          rw [raW_notOwned r w src uri ra hfind hown]
          constructor
          · rw [show applyWrites w [] = w from rfl, raW_notOwned r w src uri ra hfind hown]
          · rintro ⟨ra0, hra0⟩
            simp at hra0
      | true =>
          cases hd : podSpecChanged ra.podSpec (expectedReceiveAdapter r src uri).podSpec with
          | false =>
              rw [raW_found_owned_nodrift r w src uri ra hfind hown hd]
              constructor
              · rw [show applyWrites w [] = w from rfl,
                  raW_found_owned_nodrift r w src uri ra hfind hown hd]
              · intro _
                rw [show applyWrites w [] = w from rfl,
                  raW_found_owned_nodrift r w src uri ra hfind hown hd]
                exact ⟨ra, rfl⟩
          | true =>
              rw [raW_found_owned_drift r w src uri ra hfind hown hd]
              set ra2 : DeploymentObj :=
                { ra with podSpec := (expectedReceiveAdapter r src uri).podSpec } with hra2
              have hfind2 : findDeploy (applyWrites w [.updateDeploy ra2]) src.ns
                  (CreateReceiveAdapterName src.name src.uid) = some ra2 := by
                have := findDeploy_after_update w ra2
                rw [show ra2.ns = src.ns from hra_ns, show ra2.name =
                  CreateReceiveAdapterName src.name src.uid from hra_name] at this
                exact this
              have hown2 : isControlledBy ra2 src = true := hown
              have hnd2 : podSpecChanged ra2.podSpec
                  (expectedReceiveAdapter r src uri).podSpec = false :=
                podSpecChanged_self _
              constructor
              · rw [raW_found_owned_nodrift r _ src uri ra2 hfind2 hown2 hnd2]
              · intro _
                rw [raW_found_owned_nodrift r _ src uri ra2 hfind2 hown2 hnd2]
                exact ⟨ra2, rfl⟩
  | none =>
      have hafter : ∀ ws : List WriteOp,
          findDeploy (applyWrites w (ws ++ [.createDeploy (expectedReceiveAdapter r src uri)]))
            src.ns (CreateReceiveAdapterName src.name src.uid) =
            some (expectedReceiveAdapter r src uri) := by
        intro ws
        have := findDeploy_applyWrites_create w ws (expectedReceiveAdapter r src uri)
        rw [hexp_ns, hexp_name] at this
        exact this
      have hsecond : ∀ w' : World,
          findDeploy w' src.ns (CreateReceiveAdapterName src.name src.uid) =
            some (expectedReceiveAdapter r src uri) →
          createReceiveAdapterW r w' src uri =
            ⟨.ok (expectedReceiveAdapter r src uri), [], [], []⟩ := by
        intro w' hF
        exact raW_found_owned_nodrift r w' src uri _ hF
          (isControlledBy_expected r src uri) (podSpecChanged_self _)
      by_cases heq : GenerateFixedName src.uid ("pingsource-" ++ src.name) =
          CreateReceiveAdapterName src.name src.uid
      · rw [raW_notFound_sameName r w src uri hfind heq]
        have h2 := hsecond _ (hafter [])
        constructor
        · rw [show [WriteOp.createDeploy (expectedReceiveAdapter r src uri)] =
            [] ++ [WriteOp.createDeploy (expectedReceiveAdapter r src uri)] from rfl, h2]
        · intro _
          rw [show [WriteOp.createDeploy (expectedReceiveAdapter r src uri)] =
            [] ++ [WriteOp.createDeploy (expectedReceiveAdapter r src uri)] from rfl, h2]
          exact ⟨_, rfl⟩
      · cases hdep : findDeploy w src.ns
            (GenerateFixedName src.uid ("pingsource-" ++ src.name)) with
        | some d0 =>
            rw [raW_notFound_diff_present r w src uri d0 hfind heq hdep]
            have h2 := hsecond _ (hafter
              [.deleteDeploy src.ns (GenerateFixedName src.uid ("pingsource-" ++ src.name))])
            constructor
            · rw [show [WriteOp.deleteDeploy src.ns
                  (GenerateFixedName src.uid ("pingsource-" ++ src.name)),
                  WriteOp.createDeploy (expectedReceiveAdapter r src uri)] =
                [WriteOp.deleteDeploy src.ns
                  (GenerateFixedName src.uid ("pingsource-" ++ src.name))] ++
                [WriteOp.createDeploy (expectedReceiveAdapter r src uri)] from rfl, h2]
            · intro _
              rw [show [WriteOp.deleteDeploy src.ns
                    (GenerateFixedName src.uid ("pingsource-" ++ src.name)),
                    WriteOp.createDeploy (expectedReceiveAdapter r src uri)] =
                  [WriteOp.deleteDeploy src.ns
                    (GenerateFixedName src.uid ("pingsource-" ++ src.name))] ++
                  [WriteOp.createDeploy (expectedReceiveAdapter r src uri)] from rfl, h2]
              exact ⟨_, rfl⟩
        | none =>
            rw [raW_notFound_diff_absent r w src uri hfind heq hdep]
            have h2 := hsecond _ (hafter [])
            constructor
            · rw [show [WriteOp.createDeploy (expectedReceiveAdapter r src uri)] =
                [] ++ [WriteOp.createDeploy (expectedReceiveAdapter r src uri)] from rfl, h2]
            · intro _
              rw [show [WriteOp.createDeploy (expectedReceiveAdapter r src uri)] =
                [] ++ [WriteOp.createDeploy (expectedReceiveAdapter r src uri)] from rfl, h2]
              exact ⟨_, rfl⟩

/-! ## Helper lemmas: the shared mt-adapter step over a consistent world -/

theorem mtW_notFound (r : RConfig) (w : World)
    (hfind : findDeploy w systemNamespace mtadapterName = none) :
    reconcileMTReceiveAdapterW r w =
      ⟨.ok (expectedMTAdapter r), [.createDeploy (expectedMTAdapter r)],
       [⟨"Normal", pingSourceDeploymentCreated, "Cluster-scoped deployment created"⟩], []⟩ := by
  unfold reconcileMTReceiveAdapterW reconcileMTReceiveAdapter
  rw [hfind]
  rfl

theorem mtW_found_nodrift (r : RConfig) (w : World) (d : DeploymentObj)
    (hfind : findDeploy w systemNamespace mtadapterName = some d)
    (hnd : podSpecChanged d.podSpec (expectedMTAdapter r).podSpec = false) :
    reconcileMTReceiveAdapterW r w = ⟨.ok d, [], [], []⟩ := by
  unfold reconcileMTReceiveAdapterW reconcileMTReceiveAdapter
  rw [hfind]
  simp [lrOf, hnd]

theorem mtW_found_drift (r : RConfig) (w : World) (d : DeploymentObj)
    (hfind : findDeploy w systemNamespace mtadapterName = some d)
    (hd : podSpecChanged d.podSpec (expectedMTAdapter r).podSpec = true) :
    reconcileMTReceiveAdapterW r w =
      ⟨.ok { d with podSpec := (expectedMTAdapter r).podSpec },
       [.updateDeploy { d with podSpec := (expectedMTAdapter r).podSpec }],
       [⟨"Normal", pingSourceDeploymentUpdated, "Cluster-scoped deployment updated"⟩], []⟩ := by
  unfold reconcileMTReceiveAdapterW reconcileMTReceiveAdapter
  rw [hfind]
  simp [lrOf, hd]

theorem mtW_res_ok (r : RConfig) (w : World) :
    ∃ d, (reconcileMTReceiveAdapterW r w).res = .ok d := by
  cases hfind : findDeploy w systemNamespace mtadapterName with
  | none => exact ⟨_, by rw [mtW_notFound r w hfind]⟩
  | some d =>
      cases hd : podSpecChanged d.podSpec (expectedMTAdapter r).podSpec with
      | false => exact ⟨d, by rw [mtW_found_nodrift r w d hfind hd]⟩
      | true => exact ⟨_, by rw [mtW_found_drift r w d hfind hd]⟩

theorem mtW_writes_kinds (r : RConfig) (w : World) :
    ∀ op ∈ (reconcileMTReceiveAdapterW r w).writes, op.isDeployWrite = true := by
  cases hfind : findDeploy w systemNamespace mtadapterName with
  | none => rw [mtW_notFound r w hfind]; simp [WriteOp.isDeployWrite]
  | some d =>
      cases hd : podSpecChanged d.podSpec (expectedMTAdapter r).podSpec with
      | false => rw [mtW_found_nodrift r w d hfind hd]; simp
      | true => rw [mtW_found_drift r w d hfind hd]; simp [WriteOp.isDeployWrite]

theorem mtW_idem (r : RConfig) (w : World) :
    (reconcileMTReceiveAdapterW r
      (applyWrites w (reconcileMTReceiveAdapterW r w).writes)).writes = [] := by
  have hexp_ns : (expectedMTAdapter r).ns = systemNamespace := rfl
  have hexp_name : (expectedMTAdapter r).name = mtadapterName := rfl
  cases hfind : findDeploy w systemNamespace mtadapterName with
  | none =>
      rw [mtW_notFound r w hfind]
      have hF : findDeploy (applyWrites w [.createDeploy (expectedMTAdapter r)])
          systemNamespace mtadapterName = some (expectedMTAdapter r) := by
        have := findDeploy_after_create w (expectedMTAdapter r)
        rw [hexp_ns, hexp_name] at this
        exact this
      rw [mtW_found_nodrift r _ _ hF (podSpecChanged_self _)]
  | some d =>
      obtain ⟨hd_ns, hd_name⟩ := findDeploy_mem_keys hfind
      cases hd : podSpecChanged d.podSpec (expectedMTAdapter r).podSpec with
      | false =>
          rw [mtW_found_nodrift r w d hfind hd]
          rw [show applyWrites w [] = w from rfl, mtW_found_nodrift r w d hfind hd]
      | true =>
          rw [mtW_found_drift r w d hfind hd]
          set d2 : DeploymentObj := { d with podSpec := (expectedMTAdapter r).podSpec } with hd2
          have hF : findDeploy (applyWrites w [.updateDeploy d2])
              systemNamespace mtadapterName = some d2 := by
            have := findDeploy_after_update w d2
            rw [show d2.ns = systemNamespace from hd_ns,
              show d2.name = mtadapterName from hd_name] at this
            exact this
          rw [mtW_found_nodrift r _ _ hF (podSpecChanged_self _)]

/-! ## Helper lemmas: the orchestrator paths -/

theorem clusterPath_parts (r : RConfig) (w : World) (source : PingSource) (st : Status) :
    (clusterPath r w source st).writes = (reconcileMTReceiveAdapterW r w).writes ∧
    (clusterPath r w source st).world =
      applyWrites w (reconcileMTReceiveAdapterW r w).writes ∧
    (clusterPath r w source st).events = (reconcileMTReceiveAdapterW r w).events := by
  cases h : (reconcileMTReceiveAdapterW r w).res <;> simp [clusterPath, h]

theorem clusterPath_result_none (r : RConfig) (w : World) (source : PingSource) (st : Status) :
    (clusterPath r w source st).result = none := by
  obtain ⟨d, hd⟩ := mtW_res_ok r w
  simp [clusterPath, hd]

theorem clusterPath_status (r : RConfig) (w : World) (source : PingSource) (st : Status) :
    (clusterPath r w source st).status.sink = st.sink ∧
    (clusterPath r w source st).status.scheduleValid = st.scheduleValid := by
  cases h : (reconcileMTReceiveAdapterW r w).res <;> simp [clusterPath, h]

theorem resourcePath_parts (r : RConfig) (w : World) (source : PingSource) (uri : String)
    (st : Status) :
    (resourcePath r w source uri st).writes =
      (reconcileServiceAccountW w source).writes ++
      (reconcileRoleBindingW (applyWrites w (reconcileServiceAccountW w source).writes)
        source).writes ++
      (createReceiveAdapterW r
        (applyWrites (applyWrites w (reconcileServiceAccountW w source).writes)
          (reconcileRoleBindingW (applyWrites w (reconcileServiceAccountW w source).writes)
            source).writes)
        source uri).writes ∧
    (resourcePath r w source uri st).world =
      applyWrites
        (applyWrites (applyWrites w (reconcileServiceAccountW w source).writes)
          (reconcileRoleBindingW (applyWrites w (reconcileServiceAccountW w source).writes)
            source).writes)
        (createReceiveAdapterW r
          (applyWrites (applyWrites w (reconcileServiceAccountW w source).writes)
            (reconcileRoleBindingW (applyWrites w (reconcileServiceAccountW w source).writes)
              source).writes)
          source uri).writes ∧
    (resourcePath r w source uri st).events =
      (reconcileServiceAccountW w source).events ++
      (reconcileRoleBindingW (applyWrites w (reconcileServiceAccountW w source).writes)
        source).events ++
      (createReceiveAdapterW r
        (applyWrites (applyWrites w (reconcileServiceAccountW w source).writes)
          (reconcileRoleBindingW (applyWrites w (reconcileServiceAccountW w source).writes)
            source).writes)
        source uri).events := by
  obtain ⟨sa, hsa⟩ := saW_res_ok w source
  obtain ⟨rb, hrb⟩ :=
    rbW_res_ok (applyWrites w (reconcileServiceAccountW w source).writes) source
  cases hra : (createReceiveAdapterW r
      (applyWrites (applyWrites w (reconcileServiceAccountW w source).writes)
        (reconcileRoleBindingW (applyWrites w (reconcileServiceAccountW w source).writes)
          source).writes)
      source uri).res <;>
    simp [resourcePath, hsa, hrb, hra]

theorem resourcePath_result (r : RConfig) (w : World) (source : PingSource) (uri : String)
    (st : Status) :
    (resourcePath r w source uri st).result =
      (match (createReceiveAdapterW r
          (applyWrites (applyWrites w (reconcileServiceAccountW w source).writes)
            (reconcileRoleBindingW (applyWrites w (reconcileServiceAccountW w source).writes)
              source).writes)
          source uri).res with
       | .ok _ => none
       | .error e => some (.raError e)) := by
  obtain ⟨sa, hsa⟩ := saW_res_ok w source
  obtain ⟨rb, hrb⟩ :=
    rbW_res_ok (applyWrites w (reconcileServiceAccountW w source).writes) source
  cases hra : (createReceiveAdapterW r
      (applyWrites (applyWrites w (reconcileServiceAccountW w source).writes)
        (reconcileRoleBindingW (applyWrites w (reconcileServiceAccountW w source).writes)
          source).writes)
      source uri).res <;>
    simp [resourcePath, hsa, hrb, hra]

theorem resourcePath_status (r : RConfig) (w : World) (source : PingSource) (uri : String)
    (st : Status) :
    (resourcePath r w source uri st).status.sink = st.sink ∧
    (resourcePath r w source uri st).status.scheduleValid = st.scheduleValid := by
  obtain ⟨sa, hsa⟩ := saW_res_ok w source
  obtain ⟨rb, hrb⟩ :=
    rbW_res_ok (applyWrites w (reconcileServiceAccountW w source).writes) source
  cases hra : (createReceiveAdapterW r
      (applyWrites (applyWrites w (reconcileServiceAccountW w source).writes)
        (reconcileRoleBindingW (applyWrites w (reconcileServiceAccountW w source).writes)
          source).writes)
      source uri).res <;>
    simp [resourcePath, hsa, hrb, hra]

theorem ReconcileKind_sinkFail (r : RConfig) (w : World) (source : PingSource)
    (h : r.resolve (defaultedDest source) source = none) :
    ReconcileKind r w source =
      ⟨some (.sinkNotFound (defaultedDest source)),
       { Status.initial with sink := .notFound }, w, [], []⟩ := by
  simp [ReconcileKind, h]

theorem ReconcileKind_cluster (r : RConfig) (w : World) (source : PingSource) (uri : String)
    (hres : r.resolve (defaultedDest source) source = some uri)
    (hscope : (scopeOf source == scopeCluster) = true) :
    ReconcileKind r w source = clusterPath r w source (statusAfterSink uri) := by
  simp [ReconcileKind, hres, hscope]

theorem ReconcileKind_resource (r : RConfig) (w : World) (source : PingSource) (uri : String)
    (hres : r.resolve (defaultedDest source) source = some uri)
    (hscope : (scopeOf source == scopeCluster) = false) :
    ReconcileKind r w source = resourcePath r w source uri (statusAfterSink uri) := by
  simp [ReconcileKind, hres, hscope]

/-! ## Helper lemmas: the second reconcile run performs no writes -/

theorem resource_secondRun_core (r : RConfig) (source : PingSource) (uri : String)
    (st2 : Status) (A B F : World)
    (hB : B = applyWrites A (reconcileRoleBindingW A source).writes)
    (hF : F = applyWrites B (createReceiveAdapterW r B source uri).writes)
    (hsaA : ∃ sa1, findSA A source.ns
      (CreateReceiveAdapterName source.name source.uid) = some sa1)
    (hrbB : ∃ rb1, findRB B source.ns
      (CreateReceiveAdapterName source.name source.uid) = some rb1) :
    (resourcePath r F source uri st2).writes = [] ∧
    ((∃ ra, (createReceiveAdapterW r B source uri).res = .ok ra) →
      (resourcePath r F source uri st2).result = none) := by
  obtain ⟨sa1, hsa1⟩ := hsaA
  obtain ⟨rb1, hrb1⟩ := hrbB
  have hsaB : findSA B source.ns (CreateReceiveAdapterName source.name source.uid) =
      findSA A source.ns (CreateReceiveAdapterName source.name source.uid) := by
    rw [hB]
    exact findSA_applyWrites A _ _ _
      (fun op hop => (WriteOp.isRB_not_others op (rbW_writes_kinds A source op hop)).1)
  have hsaF : findSA F source.ns (CreateReceiveAdapterName source.name source.uid) =
      some sa1 := by
    rw [hF, findSA_applyWrites B _ _ _
      (fun op hop => (WriteOp.isDeploy_not_others op (raW_writes_kinds r B source uri op hop)).1),
      hsaB]
    exact hsa1
  have hrbF : findRB F source.ns (CreateReceiveAdapterName source.name source.uid) =
      some rb1 := by
    rw [hF, findRB_applyWrites B _ _ _
      (fun op hop => (WriteOp.isDeploy_not_others op (raW_writes_kinds r B source uri op hop)).2)]
    exact hrb1
  have hsaStep := saW_found F source sa1 hsaF
  have hrbStep := rbW_found F source rb1 hrbF
  have hA2 : applyWrites F (reconcileServiceAccountW F source).writes = F := by
    rw [hsaStep]; rfl
  have hRB2 : applyWrites F (reconcileRoleBindingW F source).writes = F := by
    rw [hrbStep]; rfl
  have hraIdem := raW_idem r B source uri
  constructor
  · obtain ⟨hwr2, _, _⟩ := resourcePath_parts r F source uri st2
    rw [hwr2, hA2, hRB2, hsaStep, hrbStep, hF, hraIdem.1]
    rfl
  · rintro ⟨ra0, hra0⟩
    have hres2 := resourcePath_result r F source uri st2
    rw [hA2, hRB2] at hres2
    obtain ⟨ra2, hra2⟩ := hraIdem.2 ⟨ra0, hra0⟩
    rw [← hF] at hra2
    rw [hres2, hra2]

theorem resource_secondRun (r : RConfig) (w : World) (source : PingSource) (uri : String)
    (st st2 : Status) :
    (resourcePath r (resourcePath r w source uri st).world source uri st2).writes = [] ∧
    ((resourcePath r w source uri st).result = none →
      (resourcePath r (resourcePath r w source uri st).world source uri st2).result = none) := by
  obtain ⟨hwr1, hwo1, hev1⟩ := resourcePath_parts r w source uri st
  have hcore := resource_secondRun_core r source uri st2
    (applyWrites w (reconcileServiceAccountW w source).writes)
    (applyWrites (applyWrites w (reconcileServiceAccountW w source).writes)
      (reconcileRoleBindingW (applyWrites w (reconcileServiceAccountW w source).writes)
        source).writes)
    ((resourcePath r w source uri st).world)
    rfl hwo1 (saW_post w source)
    (rbW_post (applyWrites w (reconcileServiceAccountW w source).writes) source)
  refine ⟨hcore.1, fun hnone => ?_⟩
  apply hcore.2
  have hres1 := resourcePath_result r w source uri st
  rw [hnone] at hres1
  cases hra : (createReceiveAdapterW r
      (applyWrites (applyWrites w (reconcileServiceAccountW w source).writes)
        (reconcileRoleBindingW (applyWrites w (reconcileServiceAccountW w source).writes)
          source).writes)
      source uri).res with
  | ok ra => exact ⟨ra, rfl⟩
  | error e => rw [hra] at hres1; simp at hres1

theorem secondRun (r : RConfig) (w : World) (source : PingSource) :
    (ReconcileKind r (ReconcileKind r w source).world source).writes = [] ∧
    ((ReconcileKind r w source).result = none →
      (ReconcileKind r (ReconcileKind r w source).world source).result = none) := by
  cases hres : r.resolve (defaultedDest source) source with
  | none =>
      have h1 := ReconcileKind_sinkFail r w source hres
      have hworld : (ReconcileKind r w source).world = w := by rw [h1]
      constructor
      · rw [hworld, h1]
      · intro hc
        rw [h1] at hc
        simp at hc
  | some uri =>
      cases hscope : scopeOf source == scopeCluster with
      | true =>
          have h1 := ReconcileKind_cluster r w source uri hres hscope
          obtain ⟨hwr1, hwo1, _⟩ := clusterPath_parts r w source (statusAfterSink uri)
          have hworld : (ReconcileKind r w source).world =
              applyWrites w (reconcileMTReceiveAdapterW r w).writes := by
            rw [h1]; exact hwo1
          have h2 := ReconcileKind_cluster r
            (applyWrites w (reconcileMTReceiveAdapterW r w).writes) source uri hres hscope
          constructor
          · rw [hworld, h2]
            obtain ⟨hwr2, _, _⟩ := clusterPath_parts r
              (applyWrites w (reconcileMTReceiveAdapterW r w).writes) source
              (statusAfterSink uri)
            rw [hwr2]
            exact mtW_idem r w
          · intro _
            rw [hworld, h2]
            exact clusterPath_result_none r _ source _
      | false =>
          have h1 := ReconcileKind_resource r w source uri hres hscope
          have hworld : (ReconcileKind r w source).world =
              (resourcePath r w source uri (statusAfterSink uri)).world := by rw [h1]
          have h2 := ReconcileKind_resource r
            (resourcePath r w source uri (statusAfterSink uri)).world source uri hres hscope
          have hrs := resource_secondRun r w source uri (statusAfterSink uri) (statusAfterSink uri)
          constructor
          · rw [hworld, h2]
            exact hrs.1
          · intro hc
            rw [hworld, h2]
            apply hrs.2
            rw [h1] at hc
            exact hc

/-! ## Helper lemmas: status projections and deletion-related lookups -/

theorem ReconcileKind_status_ok (r : RConfig) (w : World) (source : PingSource) (uri : String)
    (hres : r.resolve (defaultedDest source) source = some uri) :
    (ReconcileKind r w source).status.sink = .resolved uri ∧
    (ReconcileKind r w source).status.scheduleValid = true := by
  cases hscope : scopeOf source == scopeCluster with
  | true =>
      rw [ReconcileKind_cluster r w source uri hres hscope]
      exact clusterPath_status r w source (statusAfterSink uri)
  | false =>
      rw [ReconcileKind_resource r w source uri hres hscope]
      exact resourcePath_status r w source uri (statusAfterSink uri)

theorem findDeploy_create_other (w : World) (d : DeploymentObj) (ns n : String)
    (h : (d.ns == ns && d.name == n) = false) :
    findDeploy (applyWrite w (.createDeploy d)) ns n = findDeploy w ns n := by
  simp only [applyWrite, findDeploy, List.find?_cons, h]

theorem findDeploy_after_delete (w : World) (ns n : String) :
    findDeploy (applyWrite w (.deleteDeploy ns n)) ns n = none := by
  rw [findDeploy, List.find?_eq_none]
  intro x hx
  simp only [applyWrite, List.mem_filter] at hx
  have h2 := hx.2
  simp only [Bool.not_eq_true', Bool.and_eq_false_iff, beq_eq_false_iff_ne] at h2
  intro hcontra
  simp only [Bool.and_eq_true, beq_iff_eq] at hcontra
  rcases h2 with h2 | h2
  · exact h2 hcontra.1
  · exact h2 hcontra.2

/-! ## Claim theorems -/

/-- C2: reconciling the same source twice in a row over a consistent store (lister agreeing
    with the store, no external change in between) performs zero create, update or delete
    calls during the second run; moreover a successful first run is followed by a successful
    second run, i.e. every managed object is found, passes the ownership check where it
    applies, and shows no drift. -/
theorem c2_reconcile_idempotent (r : RConfig) (w : World) (source : PingSource) :
    (ReconcileKind r (ReconcileKind r w source).world source).writes = [] ∧
    ((ReconcileKind r w source).result = none →
      (ReconcileKind r (ReconcileKind r w source).world source).result = none) :=
  secondRun r w source

/-- C2 witness: at a concrete configuration, empty world and resource-scoped source the
    first run succeeds and the second run succeeds with no writes. -/
theorem c2_reconcile_idempotent_witness :
    (ReconcileKind cfg0 wEmpty srcRes).result = none ∧
    (ReconcileKind cfg0 (ReconcileKind cfg0 wEmpty srcRes).world srcRes).writes = [] ∧
    (ReconcileKind cfg0 (ReconcileKind cfg0 wEmpty srcRes).world srcRes).result = none :=
  ⟨by decide, (c2_reconcile_idempotent cfg0 wEmpty srcRes).1,
   (c2_reconcile_idempotent cfg0 wEmpty srcRes).2 (by decide)⟩

/-- C6: when the destination resolver fails, the sink condition is marked not found, the
    reconcile returns immediately with the failure carrying the namespace-defaulted
    serialized reference, and no managed object is touched (world unchanged, no writes, no
    events); when resolution succeeds, the sink address is set on status and the schedule
    is unconditionally marked valid. -/
theorem c6_sink_resolution (r : RConfig) (w : World) (source : PingSource) :
    (r.resolve (defaultedDest source) source = none →
      ReconcileKind r w source =
        ⟨some (.sinkNotFound (defaultedDest source)),
         { Status.initial with sink := .notFound }, w, [], []⟩) ∧
    (∀ uri, r.resolve (defaultedDest source) source = some uri →
      (ReconcileKind r w source).status.sink = .resolved uri ∧
      (ReconcileKind r w source).status.scheduleValid = true) :=
  ⟨ReconcileKind_sinkFail r w source,
   fun uri hres => ReconcileKind_status_ok r w source uri hres⟩

/-- C6 witness: a failing resolver leaves the world untouched with the defaulted reference
    in the failure, and a succeeding resolver sets the sink address and the schedule flag. -/
theorem c6_sink_resolution_witness :
    ReconcileKind cfgNoSink wEmpty srcRes =
      ⟨some (.sinkNotFound (defaultedDest srcRes)),
       { Status.initial with sink := .notFound }, wEmpty, [], []⟩ ∧
    (ReconcileKind cfg0 wEmpty srcRes).status.sink = .resolved "http://sink.example" ∧
    (ReconcileKind cfg0 wEmpty srcRes).status.scheduleValid = true :=
  ⟨(c6_sink_resolution cfgNoSink wEmpty srcRes).1 rfl,
   ((c6_sink_resolution cfg0 wEmpty srcRes).2 "http://sink.example" rfl).1,
   ((c6_sink_resolution cfg0 wEmpty srcRes).2 "http://sink.example" rfl).2⟩

/-- C9: a structured destination reference with an empty namespace is resolved against a
    copy whose namespace is the source's own namespace; a reference with an explicit
    namespace is passed through unchanged; the original sink value itself is never
    modified (the defaulting acts on a copy), and the resolver outcome recorded by
    reconcile is exactly the outcome on the defaulted copy. -/
theorem c9_namespace_defaulting (source : PingSource) :
    (∀ ref, source.sink.ref = some ref → ref.ns = "" →
      defaultedDest source = { source.sink with ref := some { ref with ns := source.ns } }) ∧
    (∀ ref, source.sink.ref = some ref → ref.ns ≠ "" →
      defaultedDest source = source.sink) ∧
    (source.sink.ref = none → defaultedDest source = source.sink) ∧
    (∀ r w, r.resolve (defaultedDest source) source = none →
      (ReconcileKind r w source).result = some (.sinkNotFound (defaultedDest source))) ∧
    (∀ r w uri, r.resolve (defaultedDest source) source = some uri →
      (ReconcileKind r w source).status.sink = .resolved uri) := by
  refine ⟨?_, ?_, ?_, ?_, ?_⟩
  · intro ref href hns
    unfold defaultedDest
    rw [href]
    simp [hns]
  · intro ref href hns
    unfold defaultedDest
    rw [href]
    simp [hns]
  · intro href
    unfold defaultedDest
    rw [href]
  · intro r w hres
    rw [ReconcileKind_sinkFail r w source hres]
  · intro r w uri hres
    exact (ReconcileKind_status_ok r w source uri hres).1

/-- C9 witness: the empty-namespace reference of a concrete source is defaulted to the
    source namespace, an explicit namespace is preserved, and resolution is recorded. -/
theorem c9_namespace_defaulting_witness :
    defaultedDest srcRes = { srcRes.sink with ref := some ⟨"Service", "ns1", "svc1"⟩ } ∧
    defaultedDest srcExplicitNs = srcExplicitNs.sink ∧
    (ReconcileKind cfg0 wEmpty srcRes).status.sink = .resolved "http://sink.example" :=
  ⟨(c9_namespace_defaulting srcRes).1 ⟨"Service", "", "svc1"⟩ rfl rfl,
   (c9_namespace_defaulting srcExplicitNs).2.1 ⟨"Service", "ns9", "svc1"⟩ rfl (by decide),
   (c9_namespace_defaulting srcRes).2.2.2.2 cfg0 wEmpty "http://sink.example" rfl⟩

/-- C1 counterexample: a service account exists at the expected deterministic name in the
    source namespace but is owned by a different owner, yet reconciling the source returns
    no ownership-conflict error at all — it succeeds, because the service-account (and
    role-binding) steps perform no ownership check. -/
theorem c1_counterexample :
    findSA wForeignSA srcRes.ns (CreateReceiveAdapterName srcRes.name srcRes.uid) =
      some saForeign ∧
    saForeign.ownerUid ≠ some srcRes.uid ∧
    (ReconcileKind cfg0 wForeignSA srcRes).result = none := by
  decide

/-- C1 (amended): the ownership check protects only the per-source adapter deployment:
    if a deployment exists at the expected name but is not controlled by the source,
    reconcile returns the ownership-conflict error, performs no deployment write, and
    leaves the object untouched in the store; an existing service account or role binding
    at the expected name is reused as is, without any ownership verification, with no
    error and no write. -/
theorem c1_ownership_check_deployment_only (r : RConfig) (w : World) (source : PingSource)
    (uri : String) (ra : DeploymentObj)
    (hres : r.resolve (defaultedDest source) source = some uri)
    (hscope : (scopeOf source == scopeCluster) = false)
    (hra : findDeploy w source.ns (CreateReceiveAdapterName source.name source.uid) = some ra)
    (hown : isControlledBy ra source = false) :
    (ReconcileKind r w source).result = some (.raError (.notOwned ra.name source.name)) ∧
    (∀ op ∈ (ReconcileKind r w source).writes, op.isDeployWrite = false) ∧
    findDeploy (ReconcileKind r w source).world source.ns
      (CreateReceiveAdapterName source.name source.uid) = some ra ∧
    (∀ (w' : World) (src' : PingSource) (sa : SAObj),
      findSA w' src'.ns (CreateReceiveAdapterName src'.name src'.uid) = some sa →
      reconcileServiceAccountW w' src' = ⟨.ok sa, [], [], []⟩) ∧
    (∀ (w' : World) (src' : PingSource) (rb : RBObj),
      findRB w' src'.ns (CreateReceiveAdapterName src'.name src'.uid) = some rb →
      reconcileRoleBindingW w' src' = ⟨.ok rb, [], [], []⟩) := by
  have h1 := ReconcileKind_resource r w source uri hres hscope
  have hDA : findDeploy (applyWrites w (reconcileServiceAccountW w source).writes)
      source.ns (CreateReceiveAdapterName source.name source.uid) =
      findDeploy w source.ns (CreateReceiveAdapterName source.name source.uid) :=
    findDeploy_applyWrites w _ _ _
      (fun op hop => (WriteOp.isSA_not_others op (saW_writes_kinds w source op hop)).2)
  have hDB : findDeploy
      (applyWrites (applyWrites w (reconcileServiceAccountW w source).writes)
        (reconcileRoleBindingW (applyWrites w (reconcileServiceAccountW w source).writes)
          source).writes)
      source.ns (CreateReceiveAdapterName source.name source.uid) = some ra := by
    rw [findDeploy_applyWrites _ _ _ _
      (fun op hop => (WriteOp.isRB_not_others op
        (rbW_writes_kinds (applyWrites w (reconcileServiceAccountW w source).writes)
          source op hop)).2), hDA]
    exact hra
  have hstep := raW_notOwned r _ source uri ra hDB hown
  obtain ⟨hwr, hwo, _⟩ := resourcePath_parts r w source uri (statusAfterSink uri)
  refine ⟨?_, ?_, ?_, fun w' src' sa h => saW_found w' src' sa h,
    fun w' src' rb h => rbW_found w' src' rb h⟩
  · rw [h1, resourcePath_result r w source uri (statusAfterSink uri), hstep]
  · intro op hop
    rw [h1, hwr, hstep] at hop
    simp only [List.append_nil, List.mem_append] at hop
    rcases hop with hop | hop
    · exact (WriteOp.isSA_not_others op (saW_writes_kinds w source op hop)).2
    · exact (WriteOp.isRB_not_others op
        (rbW_writes_kinds (applyWrites w (reconcileServiceAccountW w source).writes)
          source op hop)).2
  · rw [h1, hwo, hstep]
    exact hDB

/-- C1 witness: at a concrete world holding a deployment at the expected name that is
    controlled by a different owner, reconcile returns the ownership-conflict error and the
    foreign deployment is still in the store unchanged afterwards. -/
theorem c1_ownership_witness :
    findDeploy wForeignRA srcRes.ns (CreateReceiveAdapterName srcRes.name srcRes.uid) =
      some raForeign ∧
    isControlledBy raForeign srcRes = false ∧
    (ReconcileKind cfg0 wForeignRA srcRes).result =
      some (.raError (.notOwned raForeign.name srcRes.name)) ∧
    findDeploy (ReconcileKind cfg0 wForeignRA srcRes).world srcRes.ns
      (CreateReceiveAdapterName srcRes.name srcRes.uid) = some raForeign :=
  ⟨by decide, by decide,
   (c1_ownership_check_deployment_only cfg0 wForeignRA srcRes "http://sink.example"
      raForeign rfl (by decide) (by decide) (by decide)).1,
   (c1_ownership_check_deployment_only cfg0 wForeignRA srcRes "http://sink.example"
      raForeign rfl (by decide) (by decide) (by decide)).2.2.1⟩

/-- C3: the drift check is one-directional: whenever every field set in the desired pod
    spec D is consistent with the live pod spec L (D is a semantic derivative of L), no
    drift is reported; extra live fields the reconciler did not set never by themselves
    cause drift (consistency is preserved under extending L); and in that situation the
    adapter step reuses the live object with no update write and no event. -/
theorem c3_drift_one_directional (D L : PodSpec) (more : List (String × String))
    (r : RConfig) (src : PingSource) (uri : String) (ra : DeploymentObj)
    (delRes : DelR) (createRes updateRes : CR)
    (hDL : deepDerivative D L = true)
    (hra : deepDerivative (expectedReceiveAdapter r src uri).podSpec ra.podSpec = true)
    (hown : isControlledBy ra src = true) :
    podSpecChanged L D = false ∧
    deepDerivative D (extendExtra L more) = true ∧
    podSpecChanged (extendExtra L more) D = false ∧
    createReceiveAdapter r src uri (.found ra) delRes createRes updateRes =
      ⟨.ok ra, [], [], []⟩ := by
  have h2 := deepDerivative_extendExtra D L more hDL
  refine ⟨by simp [podSpecChanged, hDL], h2, by simp [podSpecChanged, h2], ?_⟩
  unfold createReceiveAdapter
  simp [hown, podSpecChanged, hra]

/-- C3 witness: a concrete live pod spec carrying a server-injected extra field is not
    reported as drifted from the desired spec, and the adapter step reuses the live
    deployment without a write. -/
theorem c3_drift_witness :
    deepDerivative psDesired psLive = true ∧
    podSpecChanged psLive psDesired = false ∧
    createReceiveAdapter cfg0 srcRes "http://sink.example" (.found raLive)
      .notFound .ok .ok = ⟨.ok raLive, [], [], []⟩ :=
  ⟨by decide,
   (c3_drift_one_directional psDesired psLive [] cfg0 srcRes "http://sink.example" raLive
      .notFound .ok .ok (by decide) (by decide) (by decide)).1,
   (c3_drift_one_directional psDesired psLive [] cfg0 srcRes "http://sink.example" raLive
      .notFound .ok .ok (by decide) (by decide) (by decide)).2.2.2⟩

/-- C4: for a resource-scoped source whose adapter deployment is absent under the current
    deterministic name and whose deprecated name differs, reconcile first deletes any
    deployment under the deprecated name (a missing one is treated as success and produces
    no store change), then creates the deployment under the current name — the deployment
    writes are exactly the delete (when something was there) followed by the create;
    afterwards nothing is left under the deprecated name, the expected deployment is in
    place, and a subsequent reconcile attempts no deletion. -/
theorem c4_migration_shim (r : RConfig) (w : World) (source : PingSource) (uri : String)
    (hres : r.resolve (defaultedDest source) source = some uri)
    (hscope : (scopeOf source == scopeCluster) = false)
    (habsent : findDeploy w source.ns (CreateReceiveAdapterName source.name source.uid) = none)
    (hdiff : GenerateFixedName source.uid ("pingsource-" ++ source.name) ≠
      CreateReceiveAdapterName source.name source.uid) :
    deployWritesOf (ReconcileKind r w source).writes =
      (match findDeploy w source.ns
          (GenerateFixedName source.uid ("pingsource-" ++ source.name)) with
       | some _ => [WriteOp.deleteDeploy source.ns
           (GenerateFixedName source.uid ("pingsource-" ++ source.name))]
       | none => []) ++
      [WriteOp.createDeploy (expectedReceiveAdapter r source uri)] ∧
    findDeploy (ReconcileKind r w source).world source.ns
      (GenerateFixedName source.uid ("pingsource-" ++ source.name)) = none ∧
    findDeploy (ReconcileKind r w source).world source.ns
      (CreateReceiveAdapterName source.name source.uid) =
      some (expectedReceiveAdapter r source uri) ∧
    deleteWritesOf (ReconcileKind r (ReconcileKind r w source).world source).writes = [] := by
  have h1 := ReconcileKind_resource r w source uri hres hscope
  have hTA : ∀ n, findDeploy (applyWrites w (reconcileServiceAccountW w source).writes)
      source.ns n = findDeploy w source.ns n := fun n =>
    findDeploy_applyWrites w _ _ _
      (fun op hop => (WriteOp.isSA_not_others op (saW_writes_kinds w source op hop)).2)
  have hTB : ∀ n, findDeploy
      (applyWrites (applyWrites w (reconcileServiceAccountW w source).writes)
        (reconcileRoleBindingW (applyWrites w (reconcileServiceAccountW w source).writes)
          source).writes)
      source.ns n =
      findDeploy w source.ns n := by
    intro n
    rw [findDeploy_applyWrites _ _ _ _
      (fun op hop => (WriteOp.isRB_not_others op
        (rbW_writes_kinds (applyWrites w (reconcileServiceAccountW w source).writes)
          source op hop)).2)]
    exact hTA n
  have habsentB := (hTB (CreateReceiveAdapterName source.name source.uid)).trans habsent
  have hfsa : (reconcileServiceAccountW w source).writes.filter WriteOp.isDeployWrite = [] := by
    rw [List.filter_eq_nil_iff]
    intro op hop
    simp [(WriteOp.isSA_not_others op (saW_writes_kinds w source op hop)).2]
  have hfrb : (reconcileRoleBindingW
      (applyWrites w (reconcileServiceAccountW w source).writes) source).writes.filter
        WriteOp.isDeployWrite = [] := by
    rw [List.filter_eq_nil_iff]
    intro op hop
    simp [(WriteOp.isRB_not_others op
      (rbW_writes_kinds (applyWrites w (reconcileServiceAccountW w source).writes)
        source op hop)).2]
  have hne2 : ((expectedReceiveAdapter r source uri).ns == source.ns &&
      (expectedReceiveAdapter r source uri).name ==
        GenerateFixedName source.uid ("pingsource-" ++ source.name)) = false := by
    have hb : ((expectedReceiveAdapter r source uri).name ==
        GenerateFixedName source.uid ("pingsource-" ++ source.name)) = false :=
      beq_eq_false_iff_ne.mpr (Ne.symm hdiff)
    rw [hb, Bool.and_false]
  obtain ⟨hwr, hwo, _⟩ := resourcePath_parts r w source uri (statusAfterSink uri)
  have hsecond := (secondRun r w source).1
  cases hdep : findDeploy w source.ns
      (GenerateFixedName source.uid ("pingsource-" ++ source.name)) with
  | some d0 =>
      have hdepB := (hTB (GenerateFixedName source.uid ("pingsource-" ++ source.name))).trans hdep
      have hstep := raW_notFound_diff_present r _ source uri d0 habsentB hdiff hdepB
      refine ⟨?_, ?_, ?_, ?_⟩
      · rw [h1, hwr, hstep]
        unfold deployWritesOf
        rw [List.filter_append, List.filter_append, hfsa, hfrb]
        simp [WriteOp.isDeployWrite]
      · rw [h1, hwo, hstep]
        show findDeploy (applyWrite (applyWrite
            (applyWrites (applyWrites w (reconcileServiceAccountW w source).writes)
              (reconcileRoleBindingW
                (applyWrites w (reconcileServiceAccountW w source).writes) source).writes)
            (.deleteDeploy source.ns
              (GenerateFixedName source.uid ("pingsource-" ++ source.name))))
            (.createDeploy (expectedReceiveAdapter r source uri)))
          source.ns (GenerateFixedName source.uid ("pingsource-" ++ source.name)) = none
        rw [findDeploy_create_other _ _ _ _ hne2]
        exact findDeploy_after_delete _ source.ns _
      · rw [h1, hwo, hstep]
        exact findDeploy_applyWrites_create _
          [.deleteDeploy source.ns (GenerateFixedName source.uid ("pingsource-" ++ source.name))]
          (expectedReceiveAdapter r source uri)
      · rw [hsecond]
        rfl
  | none =>
      have hdepB := (hTB (GenerateFixedName source.uid ("pingsource-" ++ source.name))).trans hdep
      have hstep := raW_notFound_diff_absent r _ source uri habsentB hdiff hdepB
      refine ⟨?_, ?_, ?_, ?_⟩
      · rw [h1, hwr, hstep]
        unfold deployWritesOf
        rw [List.filter_append, List.filter_append, hfsa, hfrb]
        simp [WriteOp.isDeployWrite]
      · rw [h1, hwo, hstep]
        show findDeploy (applyWrite
            (applyWrites (applyWrites w (reconcileServiceAccountW w source).writes)
              (reconcileRoleBindingW
                (applyWrites w (reconcileServiceAccountW w source).writes) source).writes)
            (.createDeploy (expectedReceiveAdapter r source uri)))
          source.ns (GenerateFixedName source.uid ("pingsource-" ++ source.name)) = none
        rw [findDeploy_create_other _ _ _ _ hne2]
        exact hdepB
      · rw [h1, hwo, hstep]
        exact findDeploy_applyWrites_create _ [] (expectedReceiveAdapter r source uri)
      · rw [hsecond]
        rfl

/-- C4 witness: at a concrete world holding only a deployment under the deprecated name,
    reconcile deletes it and creates the current-name deployment (in that order), and the
    following reconcile performs no deletion. -/
theorem c4_migration_shim_witness :
    findDeploy wDeprecated srcRes.ns
      (GenerateFixedName srcRes.uid ("pingsource-" ++ srcRes.name)) = some raDeprecated ∧
    deployWritesOf (ReconcileKind cfg0 wDeprecated srcRes).writes =
      [WriteOp.deleteDeploy srcRes.ns
         (GenerateFixedName srcRes.uid ("pingsource-" ++ srcRes.name)),
       WriteOp.createDeploy (expectedReceiveAdapter cfg0 srcRes "http://sink.example")] ∧
    findDeploy (ReconcileKind cfg0 wDeprecated srcRes).world srcRes.ns
      (GenerateFixedName srcRes.uid ("pingsource-" ++ srcRes.name)) = none ∧
    deleteWritesOf
      (ReconcileKind cfg0 (ReconcileKind cfg0 wDeprecated srcRes).world srcRes).writes = [] := by
  have h4 := c4_migration_shim cfg0 wDeprecated srcRes "http://sink.example" rfl
    (by decide) (by decide) (by decide)
  refine ⟨by decide, ?_, h4.2.1, h4.2.2.2⟩
  rw [h4.1]
  decide

/-- C5 counterexample: a source annotated with the unrecognized scope value "bogus" is NOT
    routed like one with the cluster scope: it takes the dedicated per-source path (its
    reconcile creates a service account, a role binding and a per-source deployment rather
    than the shared deployment), refuting the claim that unrecognized values default to the
    cluster path. -/
theorem c5_counterexample :
    scopeOf srcBogus = "bogus" ∧
    routesToCluster srcBogus = false ∧
    routesToCluster srcNoAnnot = true ∧
    (ReconcileKind cfg0 wEmpty srcBogus).writes ≠
      (ReconcileKind cfg0 wEmpty srcNoAnnot).writes ∧
    (ReconcileKind cfg0 wEmpty srcBogus).writes =
      (ReconcileKind cfg0 wEmpty srcRes).writes := by
  decide

/-- C5 (amended): scope routing is a pure function of the annotations with no error case;
    an absent annotation routes to the cluster path exactly like an explicit `cluster`
    value; a present annotation routes to the cluster path if and only if its value is
    `cluster` — ANY other value, the recognized `resource` and unrecognized ones alike,
    routes to the dedicated per-source path. -/
theorem c5_scope_routing (source : PingSource) :
    (source.annots.find? (fun kv => kv.1 == scopeAnnotKey) = none →
      routesToCluster source = true) ∧
    (∀ kv, source.annots.find? (fun kv2 => kv2.1 == scopeAnnotKey) = some kv →
      (routesToCluster source = true ↔ kv.2 = scopeCluster)) ∧
    (∀ r w uri, r.resolve (defaultedDest source) source = some uri →
      ReconcileKind r w source =
        (if routesToCluster source then clusterPath r w source (statusAfterSink uri)
         else resourcePath r w source uri (statusAfterSink uri))) := by
  refine ⟨?_, ?_, ?_⟩
  · intro h
    simp [routesToCluster, scopeOf, h]
  · intro kv h
    simp [routesToCluster, scopeOf, h]
  · intro r w uri hres
    cases hc : routesToCluster source with
    | true =>
        rw [if_pos rfl]
        exact ReconcileKind_cluster r w source uri hres hc
    | false =>
        rw [if_neg (by simp)]
        exact ReconcileKind_resource r w source uri hres hc

/-- C5 witness: the absent-annotation source routes to the cluster path, the
    explicitly-cluster source routes there too, and the bogus-annotated source takes the
    per-source path of the orchestrator. -/
theorem c5_scope_routing_witness :
    routesToCluster srcNoAnnot = true ∧
    (routesToCluster srcClusterAnnot = true ↔
      ((scopeAnnotKey, scopeCluster) : String × String).2 = scopeCluster) ∧
    ReconcileKind cfg0 wEmpty srcBogus =
      resourcePath cfg0 wEmpty srcBogus "http://sink.example"
        (statusAfterSink "http://sink.example") := by
  refine ⟨(c5_scope_routing srcNoAnnot).1 (by decide),
    (c5_scope_routing srcClusterAnnot).2.1 (scopeAnnotKey, scopeCluster) (by decide), ?_⟩
  have h := (c5_scope_routing srcBogus).2.2 cfg0 wEmpty "http://sink.example" rfl
  rw [h]
  have hb : routesToCluster srcBogus = false := by decide
  rw [hb]
  simp

/-- C7 counterexample: on a transient lookup failure the service-account step DOES mutate
    the source status: it records a diagnostic entry in the status annotations before
    returning the error, refuting "no status mutation beyond what earlier successful steps
    already wrote". -/
theorem c7_counterexample :
    (reconcileServiceAccount srcRes (.err "connection refused") .ok).res =
      .error (.getFailed "connection refused") ∧
    (reconcileServiceAccount srcRes (.err "connection refused") .ok).statusAnnots =
      [("serviceAccount", "Failed to get ServiceAccount")] ∧
    (reconcileServiceAccount srcRes (.err "connection refused") .ok).statusAnnots ≠ [] := by
  refine ⟨rfl, rfl, by decide⟩

/-- C7 (amended): on a transient store failure (get, create, update or delete error other
    than not-found) every managed-object step returns the error and performs no store
    write; the deployment steps leave the source status untouched, but a failed
    service-account or role-binding lookup additionally records a diagnostic entry in the
    status annotations before returning. -/
theorem c7_transient_failures (source : PingSource) (r : RConfig) (uri m : String)
    (c u : CR) (d : DelR) (ra : DeploymentObj)
    (hown : isControlledBy ra source = true)
    (hdrift : podSpecChanged ra.podSpec (expectedReceiveAdapter r source uri).podSpec = true)
    (hdiff : GenerateFixedName source.uid ("pingsource-" ++ source.name) ≠
      CreateReceiveAdapterName source.name source.uid) :
    reconcileServiceAccount source (.err m) c =
      ⟨.error (.getFailed m), [], [], [("serviceAccount", "Failed to get ServiceAccount")]⟩ ∧
    reconcileRoleBinding source (.err m) c =
      ⟨.error (.getFailed m), [], [],
       [("roleBinding", "Failed to get PingSource RoleBinding")]⟩ ∧
    reconcileServiceAccount source .notFound (.err m) =
      ⟨.error (.createFailed m), [], [], []⟩ ∧
    reconcileRoleBinding source .notFound (.err m) =
      ⟨.error (.createFailed m), [], [], []⟩ ∧
    createReceiveAdapter r source uri (.err m) d c u = ⟨.error (.getFailed m), [], [], []⟩ ∧
    reconcileMTReceiveAdapter r (.err m) c u = ⟨.error (.getFailed m), [], [], []⟩ ∧
    createReceiveAdapter r source uri (.found ra) d c (.err m) =
      ⟨.error (.updateFailed m), [], [], []⟩ ∧
    createReceiveAdapter r source uri .notFound (.err m) c u =
      ⟨.error (.deleteDeprecatedFailed m), [], [], []⟩ := by
  refine ⟨rfl, rfl, rfl, rfl, rfl, rfl, ?_, ?_⟩
  · unfold createReceiveAdapter
    simp [hown, hdrift]
  · unfold createReceiveAdapter
    have hname : (expectedReceiveAdapter r source uri).name =
      CreateReceiveAdapterName source.name source.uid := rfl
    simp [hname, hdiff]

/-- C7 witness: the amended behavior at concrete inputs: a transient lookup failure on the
    service account annotates the status; a failed update of a concrete drifted owned
    deployment returns the error with no write, no event and no status mutation. -/
theorem c7_transient_failures_witness :
    reconcileServiceAccount srcRes (.err "boom") .ok =
      ⟨.error (.getFailed "boom"), [], [],
       [("serviceAccount", "Failed to get ServiceAccount")]⟩ ∧
    createReceiveAdapter cfg0 srcRes "http://sink.example" (.found raDrift) .notFound .ok
      (.err "boom") = ⟨.error (.updateFailed "boom"), [], [], []⟩ :=
  ⟨(c7_transient_failures srcRes cfg0 "http://sink.example" "boom" .ok .ok .notFound
      raDrift (by decide) (by decide) (by decide)).1,
   (c7_transient_failures srcRes cfg0 "http://sink.example" "boom" .ok .ok .notFound
      raDrift (by decide) (by decide) (by decide)).2.2.2.2.2.2.1⟩

/-- C8 counterexample: a failed create of the per-source adapter deployment DOES emit a
    notification (a Normal-typed creation event whose message embeds the error), and a
    failed create of the shared adapter deployment emits a Warning event, refuting "no
    notification event is emitted for that failed operation". -/
theorem c8_counterexample :
    (createReceiveAdapter cfg0 srcRes "http://sink.example" .notFound .notFound
      (.err "boom") .ok).res = .error (.createFailed "boom") ∧
    (createReceiveAdapter cfg0 srcRes "http://sink.example" .notFound .notFound
      (.err "boom") .ok).events ≠ [] ∧
    (reconcileMTReceiveAdapter cfg0 .notFound (.err "boom") .ok).res =
      .error (.createFailed "boom") ∧
    (reconcileMTReceiveAdapter cfg0 .notFound (.err "boom") .ok).events =
      [⟨"Warning", pingSourceDeploymentCreated,
        "Cluster-scoped deployment not created (boom)"⟩] := by
  refine ⟨by decide, by decide, rfl, rfl⟩

/-- C8 (amended): unexpected client errors in the managed-object steps are returned as
    errors; lookup failures and a failed update emit no notification, and neither do
    failed service-account or role-binding creates; but a failed create of the per-source
    adapter deployment emits a Normal creation event whose message embeds the error, and a
    failed create of the shared adapter deployment emits a Warning event naming the error. -/
theorem c8_create_failure_events (source : PingSource) (r : RConfig) (uri m : String)
    (c u : CR) (d : DelR) (ra : DeploymentObj)
    (hown : isControlledBy ra source = true)
    (hdrift : podSpecChanged ra.podSpec (expectedReceiveAdapter r source uri).podSpec = true)
    (heq : GenerateFixedName source.uid ("pingsource-" ++ source.name) =
      CreateReceiveAdapterName source.name source.uid) :
    createReceiveAdapter r source uri .notFound d (.err m) u =
      ⟨.error (.createFailed m), [],
       [⟨"Normal", pingSourceDeploymentCreated, "Deployment created, error: " ++ m⟩], []⟩ ∧
    reconcileMTReceiveAdapter r .notFound (.err m) u =
      ⟨.error (.createFailed m), [],
       [⟨"Warning", pingSourceDeploymentCreated,
         "Cluster-scoped deployment not created (" ++ m ++ ")"⟩], []⟩ ∧
    (reconcileServiceAccount source .notFound (.err m)).events = [] ∧
    (reconcileRoleBinding source .notFound (.err m)).events = [] ∧
    (createReceiveAdapter r source uri (.err m) d c u).events = [] ∧
    (reconcileMTReceiveAdapter r (.err m) c u).events = [] ∧
    (createReceiveAdapter r source uri (.found ra) d c (.err m)).events = [] := by
  refine ⟨?_, rfl, rfl, rfl, rfl, rfl, ?_⟩
  · unfold createReceiveAdapter
    have hname : (expectedReceiveAdapter r source uri).name =
      CreateReceiveAdapterName source.name source.uid := rfl
    simp [hname, heq]
  · unfold createReceiveAdapter
    simp [hown, hdrift]

/-- C8 witness: the amended behavior at concrete inputs: a source whose deprecated and
    current names coincide, whose adapter create fails, receives the Normal creation event
    embedding the error; a failed update emits nothing. -/
theorem c8_create_failure_events_witness :
    createReceiveAdapter cfg0 srcShort "http://sink.example" .notFound .notFound
      (.err "boom") .ok =
      ⟨.error (.createFailed "boom"), [],
       [⟨"Normal", pingSourceDeploymentCreated, "Deployment created, error: boom"⟩], []⟩ ∧
    (createReceiveAdapter cfg0 srcShort "http://sink.example" (.found raDriftShort)
      .notFound .ok (.err "boom")).events = [] :=
  ⟨(c8_create_failure_events srcShort cfg0 "http://sink.example" "boom" .ok .ok .notFound
      raDriftShort (by decide) (by decide) (by decide)).1,
   (c8_create_failure_events srcShort cfg0 "http://sink.example" "boom" .ok .ok .notFound
      raDriftShort (by decide) (by decide) (by decide)).2.2.2.2.2.2⟩

/-- C10: evaluated at the failing input: the metrics callback dereferences a nil snapshot
    (the nil guard covers only the reserved-key delete) and crashes, while the claim says
    every snapshot, nil included, is handled without a hard failure; for non-nil snapshots
    the reserved `_example` key is stripped before use, the metrics options are always
    replaced (there is no parse step for metrics), and the logging callback retains the
    previous configuration exactly when its parser fails. -/
theorem c10_config_callbacks :
    UpdateFromMetricsConfigMap prevMetrics none = none ∧
    (∀ (prev : MetricsOptions) (cm : ConfigMap),
      UpdateFromMetricsConfigMap prev (some cm) =
        some ⟨metricsDomain, component, (stripExample cm).data⟩) ∧
    (∀ (parse : Option ConfigMap → Except String LoggingConfig) (prev : LoggingConfig)
        (cm : ConfigMap),
      (∃ c, parse (some (stripExample cm)) = .ok c ∧
        UpdateFromLoggingConfigMap parse prev (some cm) = some c) ∨
      ((∃ e, parse (some (stripExample cm)) = .error e) ∧
        UpdateFromLoggingConfigMap parse prev (some cm) = some prev)) ∧
    UpdateFromLoggingConfigMap parseFailAlways prevLog (some cmLog) = some prevLog ∧
    UpdateFromMetricsConfigMap prevMetrics (some cmObs) =
      some ⟨metricsDomain, component, [("metrics.backend", "prometheus")]⟩ := by
  refine ⟨rfl, fun prev cm => rfl, ?_, rfl, by decide⟩
  intro parse prev cm
  unfold UpdateFromLoggingConfigMap
  cases hp : parse (some (stripExample cm)) with
  | ok c =>
      left
      exact ⟨c, rfl, by simp [hp]⟩
  | error e =>
      right
      exact ⟨⟨e, rfl⟩, by simp [hp]⟩

end PingSourceProof
